import Mathlib

/-!
Verification of nginx-json-log, the kafka producer glue `src/ngx_json_log_kafka.c`.

A shallow embedding of the file as built with `NGX_HAVE_LIBRDKAFKA`.

* Target: LP64, so `ngx_uint_t`, `ngx_msec_t`, `size_t` and `unsigned long` are
  64-bit unsigned and `ngx_int_t`, `intmax_t` are 64-bit signed.  Unsigned values
  are `Nat`, signed ones `Int`; conversions and wrap-around are written out.
* `u_char`/`char` buffers are `String`; a pointer is an `Option` (`none` = NULL).
* Everything outside the file (librdkafka, the nginx pool and logger) is a
  `World`: for each external function the stream of answers it is still going
  to give, and the `trace` of the calls made so far, oldest first.  Each call
  takes the head of its stream, so every combination of outcomes is some world.
* `NGX_DEBUG` is a build flag, passed as a `Bool` to the two functions that have
  a block compiled only under it.
-/

namespace NgxJsonLogKafka

/-! ## Constants of nginx and librdkafka -/

/-- The nginx status `NGX_OK`. -/
def NGX_OK : Int := 0

/-- The nginx status `NGX_ERROR`. -/
def NGX_ERROR : Int := -1

/-- The nginx sentinel `NGX_CONF_UNSET`, an `ngx_int_t`. -/
def NGX_CONF_UNSET : Int := -1

/-- The nginx sentinel `NGX_CONF_UNSET_UINT`, that is `(ngx_uint_t) -1`. -/
def NGX_CONF_UNSET_UINT : Nat := 2 ^ 64 - 1

/-- The nginx sentinel `NGX_CONF_UNSET_MSEC`, that is `(ngx_msec_t) -1`. -/
def NGX_CONF_UNSET_MSEC : Nat := 2 ^ 64 - 1

/-- The nginx constant `NGX_INT64_LEN`, `sizeof("-9223372036854775808") - 1`. -/
def NGX_INT64_LEN : Nat := 20

/-- Severity `NGX_LOG_ALERT` of the nginx logger. -/
def NGX_LOG_ALERT : Nat := 2

/-- Severity `NGX_LOG_CRIT` of the nginx logger. -/
def NGX_LOG_CRIT : Nat := 3

/-- Severity `NGX_LOG_ERR` of the nginx logger. -/
def NGX_LOG_ERR : Nat := 4

/-- Severity `NGX_LOG_WARN` of the nginx logger. -/
def NGX_LOG_WARN : Nat := 5

/-- Severity `NGX_LOG_INFO` of the nginx logger. -/
def NGX_LOG_INFO : Nat := 7

/-- Severity `NGX_LOG_DEBUG` of the nginx logger. -/
def NGX_LOG_DEBUG : Nat := 8

/-- The librdkafka result code `RD_KAFKA_CONF_OK`. -/
def RD_KAFKA_CONF_OK : Int := 0

/-- The librdkafka partition sentinel `RD_KAFKA_PARTITION_UA`, `((int32_t) -1)`. -/
def RD_KAFKA_PARTITION_UA : Int := -1

/-- The librdkafka message flag `RD_KAFKA_MSG_F_COPY`. -/
def RD_KAFKA_MSG_F_COPY : Nat := 2

/-! ## Data model -/

/-- The nginx counted string `ngx_str_t`: a length and a data pointer. -/
structure ngx_str_t where
  len : Nat
  data : Option String
deriving DecidableEq, Repr

/-- The nginx initialiser `ngx_string("...")`: `sizeof(str) - 1` and the literal. -/
def ngx_string (s : String) : ngx_str_t := { len := s.length, data := some s }

/-- The nginx array `ngx_array_t` of `ngx_str_t`; `nelts` is the length of `elts`
and, being an `ngx_uint_t`, is below `2 ^ 64`. -/
structure ngx_array_t where
  elts : List ngx_str_t
  nelts_fits : elts.length < 2 ^ 64

/-- The nelts field of an `ngx_array_t`. -/
def ngx_array_t.nelts (a : ngx_array_t) : Nat := a.elts.length

/-- A pool `ngx_pool_t`; its allocator and its logger live in the `World`. -/
structure ngx_pool_t where
  id : Nat
deriving DecidableEq, Repr

/-- A librdkafka client configuration object, by handle. -/
abbrev rd_kafka_conf_t := Nat

/-- A librdkafka topic configuration object, by handle. -/
abbrev rd_kafka_topic_conf_t := Nat

/-- A librdkafka producer, by handle. -/
abbrev rd_kafka_t := Nat

/-- A librdkafka topic handle; `rd_kafka_topic_name` reads `name`. -/
structure rd_kafka_topic_t where
  name : String
deriving DecidableEq, Repr

/-- Modelled from the spec: the declaration of `ngx_json_log_main_kafka_conf_t`
(in `ngx_json_log_kafka.h`) is not among the sources.  The fields are the ones
the code reads and writes, with the types their uses require: the ConfigStore of
the spec (broker list, client id, compression, log level, retry count, buffer
limit, backoff, partition) plus the two handles and the broker count. -/
structure ngx_json_log_main_kafka_conf_t where
  rk : Option rd_kafka_t
  rkc : Option rd_kafka_conf_t
  brokers : Option ngx_array_t
  valid_brokers : Nat
  client_id : ngx_str_t
  compression : ngx_str_t
  log_level : Nat
  max_retries : Nat
  buffer_max_messages : Nat
  backoff_ms : Nat
  partition : Int

/-- One argument of a log line. -/
inductive LogArg where
  /-- A C string printed with `%s`. -/
  | s (v : String)
  /-- An `ngx_str_t` printed with `%V`. -/
  | V (v : ngx_str_t)
  /-- An integer printed with `%i` or `%d`. -/
  | i (v : Int)
  /-- The local buffer `errstr`, as librdkafka left it. -/
  | errstr
  /-- The text `rd_kafka_err2str(...)` of the last error. -/
  | err2str
  /-- The value `rd_kafka_outq_len(rk)`. -/
  | outq_len (rk : rd_kafka_t)
deriving DecidableEq, Repr

/-- One call that leaves the file, with its arguments and its answer. -/
inductive Event where
  | rd_kafka_conf_new (res : Option rd_kafka_conf_t)
  | rd_kafka_conf_set (conf : rd_kafka_conf_t) (name value : String) (res : Int)
  | rd_kafka_topic_conf_set (conf : rd_kafka_topic_conf_t) (name value : String)
      (res : Int)
  | rd_kafka_new (conf : rd_kafka_conf_t) (res : Option rd_kafka_t)
  | rd_kafka_set_log_level (rk : rd_kafka_t) (level : Int)
  | rd_kafka_brokers_add (rk : rd_kafka_t) (brokerlist : Option String) (res : Int)
  | rd_kafka_produce (rkt : rd_kafka_topic_t) (partition : Int) (msgflags : Nat)
      (payload : String) (len : Nat) (key : Option String) (keylen : Nat) (res : Int)
  | ngx_log_error (level : Nat) (fmt : String) (args : List LogArg)
deriving DecidableEq, Repr

/-- The outside world: the answers still to come from each external function and
the calls made so far. -/
structure World where
  /-- Whether the next pool allocations succeed. -/
  pcalloc : Nat → Bool
  /-- What the next calls of `rd_kafka_conf_new` return. -/
  conf_new : Nat → Option rd_kafka_conf_t
  /-- What the next calls of `rd_kafka_conf_set` return. -/
  conf_set : Nat → Int
  /-- What the next calls of `rd_kafka_topic_conf_set` return. -/
  topic_conf_set : Nat → Int
  /-- What the next calls of `rd_kafka_new` return. -/
  kafka_new : Nat → Option rd_kafka_t
  /-- What the next calls of `rd_kafka_brokers_add` return. -/
  brokers_add : Nat → Int
  /-- What the next calls of `rd_kafka_produce` return. -/
  produce : Nat → Int
  /-- What the next calls of `ngx_array_create` return. -/
  array_create : Nat → Bool
  trace : List Event

/-- The stream `f` after its head has been taken. -/
def tl {α : Type} (f : Nat → α) : Nat → α := fun n => f (n + 1)

/-! ## The external functions -/

/-- The nginx logging call `ngx_log_error(level, pool->log, 0, fmt, ...)`. -/
def ngx_log_error (level : Nat) (fmt : String) (args : List LogArg) (w : World) : World :=
  { w with trace := w.trace ++ [Event.ngx_log_error level fmt args] }

/-- The librdkafka call `rd_kafka_conf_new()`. -/
def rd_kafka_conf_new (w : World) : Option rd_kafka_conf_t × World :=
  (w.conf_new 0,
   { w with conf_new := tl w.conf_new,
            trace := w.trace ++ [Event.rd_kafka_conf_new (w.conf_new 0)] })

/-- The librdkafka call `rd_kafka_conf_set(conf, name, value, errstr, errstr_sz)`. -/
def rd_kafka_conf_set (conf : rd_kafka_conf_t) (name value : String) (w : World) :
    Int × World :=
  (w.conf_set 0,
   { w with conf_set := tl w.conf_set,
            trace := w.trace ++ [Event.rd_kafka_conf_set conf name value (w.conf_set 0)] })

/-- The librdkafka call `rd_kafka_topic_conf_set(conf, name, value, errstr, errstr_sz)`. -/
def rd_kafka_topic_conf_set (conf : rd_kafka_topic_conf_t) (name value : String)
    (w : World) : Int × World :=
  (w.topic_conf_set 0,
   { w with topic_conf_set := tl w.topic_conf_set,
            trace := w.trace ++
              [Event.rd_kafka_topic_conf_set conf name value (w.topic_conf_set 0)] })

/-- The librdkafka call `rd_kafka_new(RD_KAFKA_PRODUCER, conf, errstr, errstr_sz)`. -/
def rd_kafka_new (conf : rd_kafka_conf_t) (w : World) : Option rd_kafka_t × World :=
  (w.kafka_new 0,
   { w with kafka_new := tl w.kafka_new,
            trace := w.trace ++ [Event.rd_kafka_new conf (w.kafka_new 0)] })

/-- The librdkafka call `rd_kafka_set_log_level(rk, level)`. -/
def rd_kafka_set_log_level (rk : rd_kafka_t) (level : Int) (w : World) : World :=
  { w with trace := w.trace ++ [Event.rd_kafka_set_log_level rk level] }

/-- The librdkafka call `rd_kafka_brokers_add(rk, brokerlist)`. -/
def rd_kafka_brokers_add (rk : rd_kafka_t) (brokerlist : Option String) (w : World) :
    Int × World :=
  (w.brokers_add 0,
   { w with brokers_add := tl w.brokers_add,
            trace := w.trace ++
              [Event.rd_kafka_brokers_add rk brokerlist (w.brokers_add 0)] })

/-- The librdkafka call `rd_kafka_produce(rkt, partition, msgflags, payload, len,
key, keylen, msg_opaque)`, always made with `msg_opaque = NULL`. -/
def rd_kafka_produce (rkt : rd_kafka_topic_t) (partition : Int) (msgflags : Nat)
    (payload : String) (len : Nat) (key : Option String) (keylen : Nat) (w : World) :
    Int × World :=
  (w.produce 0,
   { w with produce := tl w.produce,
            trace := w.trace ++
              [Event.rd_kafka_produce rkt partition msgflags payload len key keylen
                (w.produce 0)] })

/-- The nginx call `ngx_array_create(pool, 1, sizeof(ngx_str_t))`: a fresh empty
array, or NULL. -/
def ngx_array_create (w : World) : Option ngx_array_t × World :=
  (if w.array_create 0 then some ⟨[], by decide⟩ else none,
   { w with array_create := tl w.array_create })

/-- The contents of the buffer that `ngx_json_log_str_dup` fills from a view: its
first `len` characters, followed by the terminator. -/
def str_buffer (src : ngx_str_t) : String :=
  ⟨((src.data.getD "").toList).take src.len⟩

/-- Modelled from the spec: `ngx_json_log_str_dup` (declared in
`ngx_json_log_str.h`) is not among the sources.  The spec has it convert a
string view into a null-terminated buffer from the pool; its callers test the
result against NULL, so the allocation may fail. -/
def ngx_json_log_str_dup (_pool : ngx_pool_t) (src : ngx_str_t) (w : World) :
    Option String × World :=
  (if w.pcalloc 0 then some (str_buffer src) else none,
   { w with pcalloc := tl w.pcalloc })

/-! ## Machine integers and formatting -/

/-- Conversion of an `ngx_uint_t` to `intmax_t` at a call: the value modulo
`2 ^ 64`, read as a signed 64-bit integer. -/
def intmax_of_uint (u : Nat) : Int :=
  if u % 2 ^ 64 < 2 ^ 63 then ((u % 2 ^ 64 : Nat) : Int) else ((u % 2 ^ 64 : Nat) : Int) - 2 ^ 64

/-- Conversion of an `ngx_int_t` to the `int32_t` parameter of `rd_kafka_produce`. -/
def int32_of_int (x : Int) : Int := (x + 2 ^ 31) % 2 ^ 32 - 2 ^ 31

/-- The C call `snprintf(buf, size, "%lu", value)` on an `intmax_t`: the decimal
digits of the value read as `unsigned long`, cut to the `size - 1` characters
that fit before the terminator. -/
def snprintf_lu (size : Nat) (value : Int) : String :=
  ⟨((Nat.repr (value % 2 ^ 64).toNat).toList).take (size - 1)⟩

/-! ## The functions of ngx_json_log_kafka.c -/

/-- The function `ngx_json_log_kafka_conf_new`: create new configuration. -/
def ngx_json_log_kafka_conf_new (_pool : ngx_pool_t) (w : World) :
    Option rd_kafka_conf_t × World :=
  let conf := rd_kafka_conf_new w
  match conf.1 with
  | none =>
    (none, ngx_log_error NGX_LOG_CRIT "json_log: Error allocating kafka conf" [] conf.2)
  | some c => (some c, conf.2)

/-- The function `ngx_json_log_kafka_conf_set_int`: set an integer config value. -/
def ngx_json_log_kafka_conf_set_int (_pool : ngx_pool_t) (conf : rd_kafka_conf_t)
    (key : String) (value : Int) (w : World) : Int × World :=
  let buf := snprintf_lu NGX_INT64_LEN value
  let ret := rd_kafka_conf_set conf key buf w
  if ret.1 ≠ RD_KAFKA_CONF_OK then
    (NGX_ERROR,
     ngx_log_error NGX_LOG_WARN "json_log: failed to set kafka conf [%s] => [%s] : %s"
       [LogArg.s key, LogArg.s buf, LogArg.errstr] ret.2)
  else
    (NGX_OK, ret.2)

/-- The function `ngx_json_log_kafka_conf_set_str`: set a string config value. -/
def ngx_json_log_kafka_conf_set_str (pool : ngx_pool_t) (conf : rd_kafka_conf_t)
    (key : String) (str : ngx_str_t) (w : World) : Int × World :=
  let value := ngx_json_log_str_dup pool str w
  match value.1 with
  | none =>
    (NGX_ERROR,
     ngx_log_error NGX_LOG_WARN "json_log: failed to set kafka conf [%s] : %s"
       [LogArg.s key, LogArg.errstr] value.2)
  | some v =>
    let ret := rd_kafka_conf_set conf key v value.2
    if ret.1 ≠ RD_KAFKA_CONF_OK then
      (NGX_ERROR,
       ngx_log_error NGX_LOG_WARN "json_log: failed to set kafka conf [%s] => [%s] : %s"
         [LogArg.s key, LogArg.s v, LogArg.errstr] ret.2)
    else
      (NGX_OK, ret.2)

/-- The function `ngx_json_log_kafka_topic_conf_set_str`. -/
def ngx_json_log_kafka_topic_conf_set_str (pool : ngx_pool_t)
    (topic_conf : rd_kafka_topic_conf_t) (key : String) (str : ngx_str_t) (w : World) :
    Int × World :=
  let value := ngx_json_log_str_dup pool str w
  match value.1 with
  | none =>
    (NGX_ERROR,
     ngx_log_error NGX_LOG_WARN "json_log: failed to set kafka topic conf [%s] : %s"
       [LogArg.s key, LogArg.errstr] value.2)
  | some v =>
    let ret := rd_kafka_topic_conf_set topic_conf key v value.2
    if ret.1 ≠ RD_KAFKA_CONF_OK then
      (NGX_ERROR,
       ngx_log_error NGX_LOG_WARN
         "json_log: failed to set kafka topic conf [%s] => [%s] : %s"
         [LogArg.s key, LogArg.s v, LogArg.errstr] ret.2)
    else
      (NGX_OK, ret.2)

/-- The function `ngx_json_log_kafka_producer_new`: create a kafka handler for
producing messages. -/
def ngx_json_log_kafka_producer_new (_pool : ngx_pool_t) (conf : rd_kafka_conf_t)
    (w : World) : Option rd_kafka_t × World :=
  let rk := rd_kafka_new conf w
  match rk.1 with
  | none =>
    (none, ngx_log_error NGX_LOG_CRIT "json_log: error allocating kafka handler" [] rk.2)
  | some h => (some h, rk.2)

/-- The loop of `ngx_json_log_kafka_add_brokers` over `rec[i]`, `i < nelts`, with
the running count `ret`, a `size_t`. -/
def add_brokers_loop (pool : ngx_pool_t) (rk : rd_kafka_t) :
    List ngx_str_t → Nat → World → Nat × World
  | [], ret, w => (ret, w)
  | broker :: rest, ret, w =>
    let value := ngx_json_log_str_dup pool broker w
    let added := rd_kafka_brokers_add rk value.1 value.2
    if added.1 ≠ 0 then
      add_brokers_loop pool rk rest ((ret + 1) % 2 ^ 64)
        (ngx_log_error NGX_LOG_INFO "json_log: broker \x22%V\x22 configured"
          [LogArg.V broker] added.2)
    else
      add_brokers_loop pool rk rest ret
        (ngx_log_error NGX_LOG_WARN "json_log: failed to configure \x22%V\x22"
          [LogArg.V broker] added.2)

/-- The function `ngx_json_log_kafka_add_brokers`. -/
def ngx_json_log_kafka_add_brokers (pool : ngx_pool_t) (rk : rd_kafka_t)
    (brokers : ngx_array_t) (w : World) : Nat × World :=
  add_brokers_loop pool rk brokers.elts 0 w

/-- The function `ngx_json_log_init_kafka`; `kafka` may be NULL. -/
def ngx_json_log_init_kafka (_pool : ngx_pool_t)
    (kafka : Option ngx_json_log_main_kafka_conf_t) (w : World) :
    (Int × Option ngx_json_log_main_kafka_conf_t) × World :=
  match kafka with
  | none => ((NGX_ERROR, none), w)
  | some kafka =>
    let kafka := { kafka with rk := none, rkc := none }
    let arr := ngx_array_create w
    let kafka := { kafka with brokers := arr.1 }
    match kafka.brokers with
    | none => ((NGX_ERROR, some kafka), arr.2)
    | some _ =>
      ((NGX_OK,
        some { kafka with
          client_id := { kafka.client_id with data := none }
          compression := { kafka.compression with data := none }
          log_level := NGX_CONF_UNSET_UINT
          max_retries := NGX_CONF_UNSET_UINT
          buffer_max_messages := NGX_CONF_UNSET_UINT
          backoff_ms := NGX_CONF_UNSET_UINT
          partition := NGX_CONF_UNSET }),
       arr.2)

/-- Key `conf_client_id_key` of `ngx_json_log_configure_kafka`. -/
def conf_client_id_key : String := "client.id"

/-- Key `conf_compression_codec_key` of `ngx_json_log_configure_kafka`. -/
def conf_compression_codec_key : String := "compression.codec"

/-- Key `conf_log_level_key` of `ngx_json_log_configure_kafka`. -/
def conf_log_level_key : String := "log_level"

/-- Key `conf_max_retries_key` of `ngx_json_log_configure_kafka`. -/
def conf_max_retries_key : String := "message.send.max.retries"

/-- Key `conf_buffer_max_msgs_key` of `ngx_json_log_configure_kafka`. -/
def conf_buffer_max_msgs_key : String := "queue.buffering.max.messages"

/-- Key `conf_retry_backoff_ms_key` of `ngx_json_log_configure_kafka`. -/
def conf_retry_backoff_ms_key : String := "retry.backoff.ms"

/-- Default `kafka_compression_default_value`. -/
def kafka_compression_default_value : ngx_str_t := ngx_string "snappy"

/-- Default `kafka_client_id_default_value`. -/
def kafka_client_id_default_value : ngx_str_t := ngx_string "nginx"

/-- Default `kafka_log_level_default_value`, an `ngx_int_t`. -/
def kafka_log_level_default_value : Int := 6

/-- Default `kafka_max_retries_default_value`, an `ngx_int_t`. -/
def kafka_max_retries_default_value : Int := 0

/-- Default `kafka_buffer_max_messages_default_value`, an `ngx_int_t`. -/
def kafka_buffer_max_messages_default_value : Int := 100000

/-- Default `kafka_backoff_ms_default_value`, an `ngx_msec_t`. -/
def kafka_backoff_ms_default_value : Nat := 10

/-- Key `conf_debug_key`, present under `NGX_DEBUG`. -/
def conf_debug_key : String := "debug"

/-- Value `conf_all_value`, present under `NGX_DEBUG`. -/
def conf_all_value : ngx_str_t := ngx_string "all"

/-- The function `ngx_json_log_configure_kafka`.  The result is `none` only where
the C code dereferences a NULL `conf->brokers`. -/
def ngx_json_log_configure_kafka (NGX_DEBUG : Bool) (pool : ngx_pool_t)
    (conf : ngx_json_log_main_kafka_conf_t) (w : World) :
    Option ((Int × ngx_json_log_main_kafka_conf_t) × World) :=
  -- create kafka configuration
  let new := ngx_json_log_kafka_conf_new pool w
  let conf := { conf with rkc := new.1 }
  let w := new.2
  match conf.rkc with
  | none => some ((NGX_ERROR, conf), w)
  | some rkc =>
    -- configure compression
    let st : ngx_json_log_main_kafka_conf_t × World :=
      if conf.compression.data = none then
        ({ conf with compression := kafka_compression_default_value },
         (ngx_json_log_kafka_conf_set_str pool rkc conf_compression_codec_key
            kafka_compression_default_value w).2)
      else
        (conf,
         (ngx_json_log_kafka_conf_set_str pool rkc conf_compression_codec_key
            conf.compression w).2)
    let conf := st.1
    let w := st.2
    -- configure max messages, max retries, retry backoff default values if unset
    let w :=
      if conf.buffer_max_messages = NGX_CONF_UNSET_UINT then
        (ngx_json_log_kafka_conf_set_int pool rkc conf_buffer_max_msgs_key
           kafka_buffer_max_messages_default_value w).2
      else
        (ngx_json_log_kafka_conf_set_int pool rkc conf_buffer_max_msgs_key
           (intmax_of_uint conf.buffer_max_messages) w).2
    let w :=
      if conf.max_retries = NGX_CONF_UNSET_UINT then
        (ngx_json_log_kafka_conf_set_int pool rkc conf_max_retries_key
           kafka_max_retries_default_value w).2
      else
        (ngx_json_log_kafka_conf_set_int pool rkc conf_max_retries_key
           (intmax_of_uint conf.max_retries) w).2
    let w :=
      if conf.backoff_ms = NGX_CONF_UNSET_MSEC then
        (ngx_json_log_kafka_conf_set_int pool rkc conf_retry_backoff_ms_key
           (intmax_of_uint kafka_backoff_ms_default_value) w).2
      else
        (ngx_json_log_kafka_conf_set_int pool rkc conf_retry_backoff_ms_key
           (intmax_of_uint conf.backoff_ms) w).2
    -- configure default client id if not set
    let w :=
      if conf.client_id.data = none then
        (ngx_json_log_kafka_conf_set_str pool rkc conf_client_id_key
           kafka_client_id_default_value w).2
      else
        (ngx_json_log_kafka_conf_set_str pool rkc conf_client_id_key
           conf.client_id w).2
    -- configure default log level if not set
    let w :=
      if conf.log_level = NGX_CONF_UNSET_UINT then
        (ngx_json_log_kafka_conf_set_int pool rkc conf_log_level_key
           kafka_log_level_default_value w).2
      else
        (ngx_json_log_kafka_conf_set_int pool rkc conf_log_level_key
           (intmax_of_uint conf.log_level) w).2
    -- configure partition
    let conf :=
      if conf.partition = NGX_CONF_UNSET then
        { conf with partition := RD_KAFKA_PARTITION_UA }
      else conf
    -- configure debug
    let w :=
      if NGX_DEBUG then
        (ngx_json_log_kafka_conf_set_str pool rkc conf_debug_key conf_all_value w).2
      else w
    -- create kafka handler
    let prod := ngx_json_log_kafka_producer_new pool rkc w
    let conf := { conf with rk := prod.1 }
    let w := prod.2
    match conf.rk with
    | none => some ((NGX_ERROR, conf), w)
    | some rk =>
      -- set client log level
      let w :=
        if conf.log_level = NGX_CONF_UNSET_UINT then
          rd_kafka_set_log_level rk (int32_of_int kafka_log_level_default_value) w
        else
          rd_kafka_set_log_level rk (int32_of_int (conf.log_level : Int)) w
      -- configure brokers
      match conf.brokers with
      | none => none
      | some brokers =>
        let added := ngx_json_log_kafka_add_brokers pool rk brokers w
        let conf := { conf with valid_brokers := added.1 }
        let w := added.2
        if conf.valid_brokers = 0 then
          some ((NGX_ERROR, conf),
            ngx_log_error NGX_LOG_ALERT
              "json_log: failed to configure at least a kafka broker." [] w)
        else
          some ((NGX_OK, conf), w)

/-- Key `conf_req_required_acks_key` of `ngx_json_log_kafka_topic_disable_ack`. -/
def conf_req_required_acks_key : String := "request.required.acks"

/-- Value `conf_zero_value` of `ngx_json_log_kafka_topic_disable_ack`. -/
def conf_zero_value : ngx_str_t := ngx_string "0"

/-- The function `ngx_json_log_kafka_topic_disable_ack`; both pointers may be
NULL. -/
def ngx_json_log_kafka_topic_disable_ack (pool : Option ngx_pool_t)
    (rktc : Option rd_kafka_topic_conf_t) (w : World) : World :=
  match pool with
  | none => w
  | some pool =>
    match rktc with
    | none => w
    | some rktc =>
      (ngx_json_log_kafka_topic_conf_set_str pool rktc conf_req_required_acks_key
        conf_zero_value w).2

/-- The function `ngx_json_log_kafka_produce`; it returns `void`, so the only
result is the world.  `msg_id` may be NULL. -/
def ngx_json_log_kafka_produce (NGX_DEBUG : Bool) (_pool : ngx_pool_t)
    (rk : rd_kafka_t) (rkt : rd_kafka_topic_t) (partition : Int) (txt : String)
    (msg_id : Option ngx_str_t) (w : World) : World :=
  let key : Option String :=
    match msg_id with
    | none => none
    | some m => match m.data with
      | none => none
      | some d => some d
  let keylen : Nat :=
    match msg_id with
    | none => 0
    | some m => m.len
  let sent := rd_kafka_produce rkt (int32_of_int partition) RD_KAFKA_MSG_F_COPY
    txt txt.length key keylen w
  let err := sent.1
  let w := sent.2
  let w :=
    if err = -1 then
      ngx_log_error NGX_LOG_ERR
        "%% Failed to produce to topic %s partition %i: %s - %d\n"
        [LogArg.s rkt.name, LogArg.i partition, LogArg.err2str, LogArg.i err] w
    else w
  if NGX_DEBUG then
    if err ≠ 0 then
      ngx_log_error NGX_LOG_DEBUG "http_json_log: kafka msg:[%s] ERR:[%d] QUEUE:[%d]"
        [LogArg.s txt, LogArg.i err, LogArg.outq_len rk] w
    else w
  else w

/-! ## Observations on a trace -/

/-- The calls made between the world `w` and a later world `w2`. -/
def since (w w2 : World) : List Event := w2.trace.drop w.trace.length

/-- The key/value pairs handed to `rd_kafka_conf_set`, in call order. -/
def conf_set_calls (t : List Event) : List (String × String) :=
  t.filterMap fun e =>
    match e with
    | Event.rd_kafka_conf_set _ k v _ => some (k, v)
    | _ => none

/-- The key/value pairs handed to `rd_kafka_topic_conf_set`, with the answer. -/
def topic_conf_set_calls (t : List Event) : List (String × String × Int) :=
  t.filterMap fun e =>
    match e with
    | Event.rd_kafka_topic_conf_set _ k v r => some (k, v, r)
    | _ => none

/-- The broker lists handed to `rd_kafka_brokers_add`, in call order. -/
def brokers_add_calls (t : List Event) : List (Option String) :=
  t.filterMap fun e =>
    match e with
    | Event.rd_kafka_brokers_add _ b _ => some b
    | _ => none

/-- The number of `rd_kafka_brokers_add` calls that returned non-zero. -/
def accepted_brokers (t : List Event) : Nat :=
  t.countP fun e =>
    match e with
    | Event.rd_kafka_brokers_add _ _ r => decide (r ≠ 0)
    | _ => false

/-- The `rd_kafka_produce` calls: key pointer, key length and answer. -/
def produce_calls (t : List Event) : List (Option String × Nat × Int) :=
  t.filterMap fun e =>
    match e with
    | Event.rd_kafka_produce _ _ _ _ _ key keylen r => some (key, keylen, r)
    | _ => none

/-- The log lines of a given severity: format and arguments. -/
def log_entries (level : Nat) (t : List Event) : List (String × List LogArg) :=
  t.filterMap fun e =>
    match e with
    | Event.ngx_log_error l fmt args => if l = level then some (fmt, args) else none
    | _ => none

/-- All log lines, whatever the severity. -/
def all_log_entries (t : List Event) : List (Nat × String × List LogArg) :=
  t.filterMap fun e =>
    match e with
    | Event.ngx_log_error l fmt args => some (l, fmt, args)
    | _ => none

/-- The value a topic configuration holds under a key after the calls of a
trace, librdkafka keeping a pair exactly when it answers `RD_KAFKA_CONF_OK`:
the value of the last accepted application of that key to that object. -/
def topic_conf_get (t : List Event) (conf : rd_kafka_topic_conf_t) (key : String) :
    Option String :=
  (t.filterMap fun e =>
    match e with
    | Event.rd_kafka_topic_conf_set c k v r =>
      if c = conf ∧ k = key ∧ r = RD_KAFKA_CONF_OK then some v else none
    | _ => none).getLast?

/-! ## The calls each helper makes -/

/-- The calls of `ngx_json_log_kafka_conf_new`, given the answer `res`. -/
def conf_new_events (res : Option rd_kafka_conf_t) : List Event :=
  Event.rd_kafka_conf_new res ::
    if res = none then
      [Event.ngx_log_error NGX_LOG_CRIT "json_log: Error allocating kafka conf" []]
    else []

/-- The calls of `ngx_json_log_kafka_producer_new`, given the answer `res`. -/
def producer_new_events (c : rd_kafka_conf_t) (res : Option rd_kafka_t) : List Event :=
  Event.rd_kafka_new c res ::
    if res = none then
      [Event.ngx_log_error NGX_LOG_CRIT "json_log: error allocating kafka handler" []]
    else []

/-- The calls of `ngx_json_log_kafka_conf_set_int`, given the answer `res`. -/
def conf_set_int_events (c : rd_kafka_conf_t) (k : String) (v : Int) (res : Int) :
    List Event :=
  Event.rd_kafka_conf_set c k (snprintf_lu NGX_INT64_LEN v) res ::
    if res ≠ RD_KAFKA_CONF_OK then
      [Event.ngx_log_error NGX_LOG_WARN
        "json_log: failed to set kafka conf [%s] => [%s] : %s"
        [LogArg.s k, LogArg.s (snprintf_lu NGX_INT64_LEN v), LogArg.errstr]]
    else []

/-- The calls of `ngx_json_log_kafka_conf_set_str`, given whether the copy was
allocated and the answer `res`. -/
def conf_set_str_events (c : rd_kafka_conf_t) (k : String) (s : ngx_str_t) (ok : Bool)
    (res : Int) : List Event :=
  if ok then
    Event.rd_kafka_conf_set c k (str_buffer s) res ::
      if res ≠ RD_KAFKA_CONF_OK then
        [Event.ngx_log_error NGX_LOG_WARN
          "json_log: failed to set kafka conf [%s] => [%s] : %s"
          [LogArg.s k, LogArg.s (str_buffer s), LogArg.errstr]]
      else []
  else
    [Event.ngx_log_error NGX_LOG_WARN "json_log: failed to set kafka conf [%s] : %s"
      [LogArg.s k, LogArg.errstr]]

/-- The calls of `ngx_json_log_kafka_topic_conf_set_str`, given whether the copy
was allocated and the answer `res`. -/
def topic_conf_set_str_events (c : rd_kafka_topic_conf_t) (k : String) (s : ngx_str_t)
    (ok : Bool) (res : Int) : List Event :=
  if ok then
    Event.rd_kafka_topic_conf_set c k (str_buffer s) res ::
      if res ≠ RD_KAFKA_CONF_OK then
        [Event.ngx_log_error NGX_LOG_WARN
          "json_log: failed to set kafka topic conf [%s] => [%s] : %s"
          [LogArg.s k, LogArg.s (str_buffer s), LogArg.errstr]]
      else []
  else
    [Event.ngx_log_error NGX_LOG_WARN "json_log: failed to set kafka topic conf [%s] : %s"
      [LogArg.s k, LogArg.errstr]]

/-- The calls one run of the broker loop makes, given the answers to come. -/
def brokers_events (rk : rd_kafka_t) :
    List ngx_str_t → (Nat → Bool) → (Nat → Int) → List Event
  | [], _, _ => []
  | b :: rest, alloc, add =>
    Event.rd_kafka_brokers_add rk (if alloc 0 then some (str_buffer b) else none) (add 0) ::
    (if add 0 ≠ 0 then
      Event.ngx_log_error NGX_LOG_INFO "json_log: broker \x22%V\x22 configured" [LogArg.V b]
    else
      Event.ngx_log_error NGX_LOG_WARN "json_log: failed to configure \x22%V\x22"
        [LogArg.V b]) ::
    brokers_events rk rest (tl alloc) (tl add)

/-- The number of non-zero answers among the next `n` of `rd_kafka_brokers_add`. -/
def accepted_count (add : Nat → Int) (n : Nat) : Nat :=
  (List.range n).countP (fun i => decide (add i ≠ 0))

/-- The key/value pairs `ngx_json_log_configure_kafka` hands to `rd_kafka_conf_set`
once the client configuration `rkc` exists, given the allocation outcomes. -/
def configured_pairs (dbg : Bool) (conf : ngx_json_log_main_kafka_conf_t)
    (alloc : Nat → Bool) : List (String × String) :=
  (if alloc 0 then
    [(conf_compression_codec_key,
      str_buffer (if conf.compression.data = none then kafka_compression_default_value
        else conf.compression))]
   else []) ++
  [(conf_buffer_max_msgs_key,
      snprintf_lu NGX_INT64_LEN
        (if conf.buffer_max_messages = NGX_CONF_UNSET_UINT then
          kafka_buffer_max_messages_default_value
         else intmax_of_uint conf.buffer_max_messages)),
   (conf_max_retries_key,
      snprintf_lu NGX_INT64_LEN
        (if conf.max_retries = NGX_CONF_UNSET_UINT then kafka_max_retries_default_value
         else intmax_of_uint conf.max_retries)),
   (conf_retry_backoff_ms_key,
      snprintf_lu NGX_INT64_LEN
        (if conf.backoff_ms = NGX_CONF_UNSET_MSEC then
          intmax_of_uint kafka_backoff_ms_default_value
         else intmax_of_uint conf.backoff_ms))] ++
  (if alloc 1 then
    [(conf_client_id_key,
      str_buffer (if conf.client_id.data = none then kafka_client_id_default_value
        else conf.client_id))]
   else []) ++
  [(conf_log_level_key,
      snprintf_lu NGX_INT64_LEN
        (if conf.log_level = NGX_CONF_UNSET_UINT then kafka_log_level_default_value
         else intmax_of_uint conf.log_level))] ++
  (if dbg && alloc 2 then [(conf_debug_key, str_buffer conf_all_value)] else [])

/-- The configuration `ngx_json_log_configure_kafka` leaves once the client
configuration `rkc` exists: what it has written before it creates the producer. -/
def configured_conf (conf : ngx_json_log_main_kafka_conf_t) (rkc : rd_kafka_conf_t) :
    ngx_json_log_main_kafka_conf_t :=
  { conf with
    rkc := some rkc
    compression :=
      if conf.compression.data = none then kafka_compression_default_value
      else conf.compression
    partition :=
      if conf.partition = NGX_CONF_UNSET then RD_KAFKA_PARTITION_UA else conf.partition }


/-! ## Concrete inputs -/

/-- A pool. -/
def pool0 : ngx_pool_t := ⟨0⟩

/-- A world in which every external call succeeds: allocations succeed, the
configuration object is 1, the producer is 2, every key and every broker is
accepted, every message is queued. -/
def world_ok : World :=
  { pcalloc := fun _ => true
    conf_new := fun _ => some 1
    conf_set := fun _ => 0
    topic_conf_set := fun _ => 0
    kafka_new := fun _ => some 2
    brokers_add := fun _ => 1
    produce := fun _ => 0
    array_create := fun _ => true
    trace := [] }

/-- A structure as the pool hands it out, all zero. -/
def kafka_zero : ngx_json_log_main_kafka_conf_t :=
  { rk := none, rkc := none, brokers := none, valid_brokers := 0,
    client_id := ⟨0, none⟩, compression := ⟨0, none⟩, log_level := 0, max_retries := 0,
    buffer_max_messages := 0, backoff_ms := 0, partition := 0 }

/-- The configuration `ngx_json_log_init_kafka` leaves, with the broker list `bs`
the directives have filled in. -/
def kafka_unset (bs : List ngx_str_t) (h : bs.length < 2 ^ 64) :
    ngx_json_log_main_kafka_conf_t :=
  { rk := none, rkc := none, brokers := some ⟨bs, h⟩, valid_brokers := 0,
    client_id := ⟨0, none⟩, compression := ⟨0, none⟩,
    log_level := NGX_CONF_UNSET_UINT, max_retries := NGX_CONF_UNSET_UINT,
    buffer_max_messages := NGX_CONF_UNSET_UINT, backoff_ms := NGX_CONF_UNSET_UINT,
    partition := NGX_CONF_UNSET }

/-- The six documented defaults, in the order they are applied. -/
def documented_defaults : List (String × String) :=
  [("compression.codec", "snappy"),
   ("queue.buffering.max.messages", "100000"),
   ("message.send.max.retries", "0"),
   ("retry.backoff.ms", "10"),
   ("client.id", "nginx"),
   ("log_level", "6")]

/-- The six settings of a configuration all hold the unset sentinel, as
`ngx_json_log_init_kafka` leaves them. -/
def fields_unset (conf : ngx_json_log_main_kafka_conf_t) : Prop :=
  conf.compression.data = none ∧ conf.client_id.data = none ∧
  conf.log_level = NGX_CONF_UNSET_UINT ∧ conf.max_retries = NGX_CONF_UNSET_UINT ∧
  conf.buffer_max_messages = NGX_CONF_UNSET_UINT ∧ conf.backoff_ms = NGX_CONF_UNSET_MSEC

/-- A world in which everything succeeds except the first pool allocation. -/
def world_first_alloc_fails : World :=
  { world_ok with pcalloc := fun n => decide (n ≠ 0) }

/-- A world in which everything succeeds except the second pool allocation. -/
def world_second_alloc_fails : World :=
  { world_ok with pcalloc := fun n => decide (n ≠ 1) }

/-- A world in which the client configuration is allocated and `rd_kafka_new`
fails. -/
def world_no_producer : World :=
  { world_ok with kafka_new := fun _ => none }

/-- A world in which no pool allocation succeeds. -/
def world_no_alloc : World :=
  { world_ok with pcalloc := fun _ => false }

/-- A world in which `rd_kafka_produce` answers -1. -/
def world_produce_fails : World :=
  { world_ok with produce := fun _ => -1 }

/-- A configuration as `ngx_json_log_init_kafka` leaves it, with one broker and
the buffer limit set to `10 ^ 19`. -/
def kafka_big_buffer : ngx_json_log_main_kafka_conf_t :=
  { kafka_unset [ngx_string "localhost:9092"] (by decide) with
    buffer_max_messages := 10000000000000000000 }

/-- The keys `ngx_json_log_configure_kafka` hands to `rd_kafka_conf_set`, given
the allocation outcomes: each of the four integer keys once, each of the two
string keys once when its copy is allocated, then the debug key. -/
def configured_keys (dbg : Bool) (alloc : Nat → Bool) : List String :=
  (if alloc 0 then ["compression.codec"] else []) ++
  ["queue.buffering.max.messages", "message.send.max.retries", "retry.backoff.ms"] ++
  (if alloc 1 then ["client.id"] else []) ++
  ["log_level"] ++
  (if dbg && alloc 2 then ["debug"] else [])

/-! # Theorems -/

/-! ## Effect of each helper on the world -/

theorem conf_new_fst (pool : ngx_pool_t) (w : World) :
    (ngx_json_log_kafka_conf_new pool w).1 = w.conf_new 0 := by
  unfold ngx_json_log_kafka_conf_new rd_kafka_conf_new
  cases h : w.conf_new 0 <;> simp [h]

theorem conf_new_snd (pool : ngx_pool_t) (w : World) :
    (ngx_json_log_kafka_conf_new pool w).2 =
      { w with
        conf_new := tl w.conf_new
        trace := w.trace ++ conf_new_events (w.conf_new 0) } := by
  unfold ngx_json_log_kafka_conf_new rd_kafka_conf_new ngx_log_error conf_new_events
  cases h : w.conf_new 0 <;> simp [h]

theorem producer_new_fst (pool : ngx_pool_t) (c : rd_kafka_conf_t) (w : World) :
    (ngx_json_log_kafka_producer_new pool c w).1 = w.kafka_new 0 := by
  unfold ngx_json_log_kafka_producer_new rd_kafka_new
  cases h : w.kafka_new 0 <;> simp [h]

theorem producer_new_snd (pool : ngx_pool_t) (c : rd_kafka_conf_t) (w : World) :
    (ngx_json_log_kafka_producer_new pool c w).2 =
      { w with
        kafka_new := tl w.kafka_new
        trace := w.trace ++ producer_new_events c (w.kafka_new 0) } := by
  unfold ngx_json_log_kafka_producer_new rd_kafka_new ngx_log_error producer_new_events
  cases h : w.kafka_new 0 <;> simp [h]

theorem conf_set_int_snd (pool : ngx_pool_t) (c : rd_kafka_conf_t) (k : String) (v : Int)
    (w : World) :
    (ngx_json_log_kafka_conf_set_int pool c k v w).2 =
      { w with
        conf_set := tl w.conf_set
        trace := w.trace ++ conf_set_int_events c k v (w.conf_set 0) } := by
  unfold ngx_json_log_kafka_conf_set_int rd_kafka_conf_set ngx_log_error
    conf_set_int_events
  by_cases h : w.conf_set 0 = RD_KAFKA_CONF_OK <;> simp [h]

theorem conf_set_str_snd (pool : ngx_pool_t) (c : rd_kafka_conf_t) (k : String)
    (s : ngx_str_t) (w : World) :
    (ngx_json_log_kafka_conf_set_str pool c k s w).2 =
      { w with
        pcalloc := tl w.pcalloc
        conf_set := if w.pcalloc 0 then tl w.conf_set else w.conf_set
        trace := w.trace ++ conf_set_str_events c k s (w.pcalloc 0) (w.conf_set 0) } := by
  unfold ngx_json_log_kafka_conf_set_str ngx_json_log_str_dup rd_kafka_conf_set
    ngx_log_error conf_set_str_events
  by_cases hp : w.pcalloc 0 = true <;>
    by_cases h : w.conf_set 0 = RD_KAFKA_CONF_OK <;> simp [hp, h]

theorem topic_conf_set_str_snd (pool : ngx_pool_t) (c : rd_kafka_topic_conf_t)
    (k : String) (s : ngx_str_t) (w : World) :
    (ngx_json_log_kafka_topic_conf_set_str pool c k s w).2 =
      { w with
        pcalloc := tl w.pcalloc
        topic_conf_set := if w.pcalloc 0 then tl w.topic_conf_set else w.topic_conf_set
        trace := w.trace ++
          topic_conf_set_str_events c k s (w.pcalloc 0) (w.topic_conf_set 0) } := by
  unfold ngx_json_log_kafka_topic_conf_set_str ngx_json_log_str_dup
    rd_kafka_topic_conf_set ngx_log_error topic_conf_set_str_events
  by_cases hp : w.pcalloc 0 = true <;>
    by_cases h : w.topic_conf_set 0 = RD_KAFKA_CONF_OK <;> simp [hp, h]

theorem add_brokers_loop_snd (pool : ngx_pool_t) (rk : rd_kafka_t) (l : List ngx_str_t) :
    ∀ (ret : Nat) (w : World),
      (add_brokers_loop pool rk l ret w).2 =
        { w with
          pcalloc := fun n => w.pcalloc (n + l.length)
          brokers_add := fun n => w.brokers_add (n + l.length)
          trace := w.trace ++ brokers_events rk l w.pcalloc w.brokers_add } := by
  induction l with
  | nil => intro ret w; simp [add_brokers_loop, brokers_events]
  | cons b rest ih =>
    intro ret w
    by_cases h : w.brokers_add 0 = 0 <;>
      simp [add_brokers_loop, brokers_events, ih, ngx_json_log_str_dup,
        rd_kafka_brokers_add, ngx_log_error, tl, h, Nat.add_assoc]

theorem add_brokers_loop_fst (pool : ngx_pool_t) (rk : rd_kafka_t) (l : List ngx_str_t) :
    ∀ (ret : Nat) (w : World), ret + l.length < 2 ^ 64 →
      (add_brokers_loop pool rk l ret w).1 =
        ret + accepted_count w.brokers_add l.length := by
  unfold accepted_count
  induction l with
  | nil => intro ret w _; simp [add_brokers_loop]
  | cons b rest ih =>
    intro ret w hlt
    rw [List.length_cons] at hlt
    rw [List.length_cons, List.range_succ_eq_map, List.countP_cons, List.countP_map]
    by_cases h : w.brokers_add 0 = 0
    · simp [add_brokers_loop, rd_kafka_brokers_add, ngx_json_log_str_dup, ngx_log_error,
        h]
      rw [ih ret _ (by omega)]
      simp [tl, Function.comp_def]
    · have hm : (ret + 1) % 18446744073709551616 = ret + 1 :=
        Nat.mod_eq_of_lt (by omega)
      simp [add_brokers_loop, rd_kafka_brokers_add, ngx_json_log_str_dup, ngx_log_error,
        h]
      rw [hm, ih (ret + 1) _ (by omega)]
      simp [tl, Function.comp_def]
      omega

theorem add_brokers_snd (pool : ngx_pool_t) (rk : rd_kafka_t) (bs : ngx_array_t)
    (w : World) :
    (ngx_json_log_kafka_add_brokers pool rk bs w).2 =
      { w with
        pcalloc := fun n => w.pcalloc (n + bs.elts.length)
        brokers_add := fun n => w.brokers_add (n + bs.elts.length)
        trace := w.trace ++ brokers_events rk bs.elts w.pcalloc w.brokers_add } :=
  add_brokers_loop_snd pool rk bs.elts 0 w

theorem add_brokers_fst (pool : ngx_pool_t) (rk : rd_kafka_t) (bs : ngx_array_t)
    (w : World) :
    (ngx_json_log_kafka_add_brokers pool rk bs w).1 =
      accepted_count w.brokers_add bs.elts.length := by
  unfold ngx_json_log_kafka_add_brokers
  rw [add_brokers_loop_fst pool rk bs.elts 0 w (by have := bs.nelts_fits; omega)]
  simp

/-! ## Merging the two arms of a conditional call -/

theorem conf_set_int_merge (c : Prop) [Decidable c] (pool : ngx_pool_t)
    (rkc : rd_kafka_conf_t) (k : String) (a b : Int) (w : World) :
    (if c then (ngx_json_log_kafka_conf_set_int pool rkc k a w).2
      else (ngx_json_log_kafka_conf_set_int pool rkc k b w).2) =
      (ngx_json_log_kafka_conf_set_int pool rkc k (if c then a else b) w).2 := by
  split <;> rfl

theorem conf_set_str_merge (c : Prop) [Decidable c] (pool : ngx_pool_t)
    (rkc : rd_kafka_conf_t) (k : String) (a b : ngx_str_t) (w : World) :
    (if c then (ngx_json_log_kafka_conf_set_str pool rkc k a w).2
      else (ngx_json_log_kafka_conf_set_str pool rkc k b w).2) =
      (ngx_json_log_kafka_conf_set_str pool rkc k (if c then a else b) w).2 := by
  split <;> rfl

theorem conf_set_str_pair_merge {δ : Type} (c : Prop) [Decidable c] (pool : ngx_pool_t)
    (rkc : rd_kafka_conf_t) (k : String) (a b : ngx_str_t) (w : World) (x y : δ) :
    (if c then (x, (ngx_json_log_kafka_conf_set_str pool rkc k a w).2)
      else (y, (ngx_json_log_kafka_conf_set_str pool rkc k b w).2)) =
      (if c then x else y,
        (ngx_json_log_kafka_conf_set_str pool rkc k (if c then a else b) w).2) := by
  split <;> rfl

theorem set_log_level_merge (c : Prop) [Decidable c] (rk : rd_kafka_t) (a b : Int)
    (w : World) :
    (if c then rd_kafka_set_log_level rk a w else rd_kafka_set_log_level rk b w) =
      rd_kafka_set_log_level rk (if c then a else b) w := by
  split <;> rfl

/-! ## Observations on the calls of each helper -/

theorem since_append (w w2 : World) (evs : List Event) (h : w2.trace = w.trace ++ evs) :
    since w w2 = evs := by
  simp [since, h]

theorem conf_set_calls_append (a b : List Event) :
    conf_set_calls (a ++ b) = conf_set_calls a ++ conf_set_calls b := by
  simp [conf_set_calls]

theorem brokers_add_calls_append (a b : List Event) :
    brokers_add_calls (a ++ b) = brokers_add_calls a ++ brokers_add_calls b := by
  simp [brokers_add_calls]

theorem accepted_brokers_append (a b : List Event) :
    accepted_brokers (a ++ b) = accepted_brokers a + accepted_brokers b := by
  simp [accepted_brokers]

theorem conf_set_calls_nil : conf_set_calls [] = [] := rfl

theorem accepted_brokers_nil : accepted_brokers [] = 0 := rfl

theorem conf_set_calls_cons_log (l : Nat) (f : String) (a : List LogArg) (t : List Event) :
    conf_set_calls (Event.ngx_log_error l f a :: t) = conf_set_calls t := rfl

theorem conf_set_calls_cons_level (rk : rd_kafka_t) (l : Int) (t : List Event) :
    conf_set_calls (Event.rd_kafka_set_log_level rk l :: t) = conf_set_calls t := rfl

theorem accepted_brokers_cons_log (l : Nat) (f : String) (a : List LogArg)
    (t : List Event) :
    accepted_brokers (Event.ngx_log_error l f a :: t) = accepted_brokers t := by
  simp [accepted_brokers]

theorem accepted_brokers_cons_level (rk : rd_kafka_t) (l : Int) (t : List Event) :
    accepted_brokers (Event.rd_kafka_set_log_level rk l :: t) = accepted_brokers t := by
  simp [accepted_brokers]

theorem conf_set_calls_conf_new (res : Option rd_kafka_conf_t) :
    conf_set_calls (conf_new_events res) = [] := by
  unfold conf_new_events conf_set_calls; split <;> simp

theorem accepted_brokers_conf_new (res : Option rd_kafka_conf_t) :
    accepted_brokers (conf_new_events res) = 0 := by
  unfold conf_new_events accepted_brokers; split <;> simp

theorem conf_set_calls_producer_new (c : rd_kafka_conf_t) (res : Option rd_kafka_t) :
    conf_set_calls (producer_new_events c res) = [] := by
  unfold producer_new_events conf_set_calls; split <;> simp

theorem accepted_brokers_producer_new (c : rd_kafka_conf_t) (res : Option rd_kafka_t) :
    accepted_brokers (producer_new_events c res) = 0 := by
  unfold producer_new_events accepted_brokers; split <;> simp

theorem conf_set_calls_int (c : rd_kafka_conf_t) (k : String) (v : Int) (res : Int) :
    conf_set_calls (conf_set_int_events c k v res) = [(k, snprintf_lu NGX_INT64_LEN v)] := by
  unfold conf_set_int_events conf_set_calls; split <;> simp

theorem accepted_brokers_int (c : rd_kafka_conf_t) (k : String) (v : Int) (res : Int) :
    accepted_brokers (conf_set_int_events c k v res) = 0 := by
  unfold conf_set_int_events accepted_brokers; split <;> simp

theorem conf_set_calls_str (c : rd_kafka_conf_t) (k : String) (s : ngx_str_t) (ok : Bool)
    (res : Int) :
    conf_set_calls (conf_set_str_events c k s ok res) =
      if ok then [(k, str_buffer s)] else [] := by
  unfold conf_set_str_events conf_set_calls
  cases ok <;> by_cases h : res = RD_KAFKA_CONF_OK <;> simp [h]

theorem accepted_brokers_str (c : rd_kafka_conf_t) (k : String) (s : ngx_str_t)
    (ok : Bool) (res : Int) :
    accepted_brokers (conf_set_str_events c k s ok res) = 0 := by
  unfold conf_set_str_events accepted_brokers
  cases ok <;> by_cases h : res = RD_KAFKA_CONF_OK <;> simp [h]

theorem conf_set_calls_brokers (rk : rd_kafka_t) (l : List ngx_str_t) :
    ∀ (alloc : Nat → Bool) (add : Nat → Int),
      conf_set_calls (brokers_events rk l alloc add) = [] := by
  induction l with
  | nil => intro alloc add; simp [brokers_events, conf_set_calls]
  | cons b rest ih =>
    intro alloc add
    have ih2 := ih (tl alloc) (tl add)
    unfold conf_set_calls at ih2 ⊢
    by_cases h : add 0 = 0 <;> simp [brokers_events, ih2, h]

theorem accepted_brokers_events (rk : rd_kafka_t) (l : List ngx_str_t) :
    ∀ (alloc : Nat → Bool) (add : Nat → Int),
      accepted_brokers (brokers_events rk l alloc add) =
        accepted_count add l.length := by
  unfold accepted_count
  induction l with
  | nil => intro alloc add; simp [brokers_events, accepted_brokers]
  | cons b rest ih =>
    intro alloc add
    have ih2 := ih (tl alloc) (tl add)
    unfold accepted_brokers at ih2 ⊢
    simp only [tl, ne_eq, decide_not] at ih2
    rw [List.length_cons, List.range_succ_eq_map, List.countP_cons, List.countP_map]
    by_cases h : add 0 = 0 <;>
      simp [brokers_events, List.countP_cons, ih2, h, tl, Function.comp_def]

theorem brokers_add_calls_events (rk : rd_kafka_t) (l : List ngx_str_t) :
    ∀ (k : Nat) (alloc : Nat → Bool) (add : Nat → Int),
      brokers_add_calls (brokers_events rk l (fun n => alloc (n + k)) add) =
        (l.enumFrom k).map
          (fun p => if alloc p.1 then some (str_buffer p.2) else none) := by
  induction l with
  | nil => intro k alloc add; simp [brokers_events, brokers_add_calls]
  | cons b rest ih =>
    intro k alloc add
    have ih2 := ih (k + 1) alloc (tl add)
    have e : (tl fun n => alloc (n + k)) = fun n => alloc (n + (k + 1)) := by
      funext n; simp [tl]; congr 1; omega
    unfold brokers_add_calls at ih2 ⊢
    by_cases h : add 0 = 0 <;> simp [brokers_events, List.enumFrom_cons, e, ih2, h]

set_option maxHeartbeats 1000000 in
theorem configure_no_conf (dbg : Bool) (pool : ngx_pool_t)
    (conf : ngx_json_log_main_kafka_conf_t) (w : World) (hc : w.conf_new 0 = none) :
    ∃ r, ngx_json_log_configure_kafka dbg pool conf w = some r ∧
      r.1.1 = NGX_ERROR ∧ r.1.2 = { conf with rkc := none } ∧
      conf_set_calls (since w r.2) = [] ∧ accepted_brokers (since w r.2) = 0 := by
  simp only [ngx_json_log_configure_kafka, conf_new_fst, hc, conf_new_snd]
  refine ⟨_, rfl, rfl, rfl, ?_, ?_⟩ <;>
    simp [since, conf_set_calls_conf_new, accepted_brokers_conf_new]

set_option maxHeartbeats 1000000 in
theorem configure_no_producer (dbg : Bool) (pool : ngx_pool_t)
    (conf : ngx_json_log_main_kafka_conf_t) (w : World) (rkc : rd_kafka_conf_t)
    (hc : w.conf_new 0 = some rkc) (hk : w.kafka_new 0 = none) :
    ∃ r, ngx_json_log_configure_kafka dbg pool conf w = some r ∧
      r.1.1 = NGX_ERROR ∧ r.1.2 = { configured_conf conf rkc with rk := none } ∧
      conf_set_calls (since w r.2) = configured_pairs dbg conf w.pcalloc ∧
      accepted_brokers (since w r.2) = 0 := by
  cases dbg <;>
  simp only [ngx_json_log_configure_kafka, conf_new_fst, hc, conf_set_str_pair_merge,
     conf_set_int_merge, conf_set_str_merge, set_log_level_merge,
     apply_ite ngx_json_log_main_kafka_conf_t.rk,
     apply_ite ngx_json_log_main_kafka_conf_t.rkc,
     apply_ite ngx_json_log_main_kafka_conf_t.brokers,
     apply_ite ngx_json_log_main_kafka_conf_t.valid_brokers,
     apply_ite ngx_json_log_main_kafka_conf_t.client_id,
     apply_ite ngx_json_log_main_kafka_conf_t.compression,
     apply_ite ngx_json_log_main_kafka_conf_t.log_level,
     apply_ite ngx_json_log_main_kafka_conf_t.max_retries,
     apply_ite ngx_json_log_main_kafka_conf_t.buffer_max_messages,
     apply_ite ngx_json_log_main_kafka_conf_t.backoff_ms,
     apply_ite ngx_json_log_main_kafka_conf_t.partition,
     ite_self, if_true, if_false, Bool.false_eq_true] <;>
  simp only [conf_new_snd, conf_set_int_snd, conf_set_str_snd, producer_new_fst,
     producer_new_snd, hk] <;>
  refine ⟨_, rfl, rfl, rfl, ?_, ?_⟩ <;>
  simp [since, List.append_assoc, conf_set_calls_append, accepted_brokers_append,
    conf_set_calls_conf_new, conf_set_calls_int, conf_set_calls_str,
    conf_set_calls_producer_new, accepted_brokers_conf_new, accepted_brokers_int,
    accepted_brokers_str, accepted_brokers_producer_new, configured_pairs, tl]

set_option maxHeartbeats 1000000 in
theorem configure_with_producer (dbg : Bool) (pool : ngx_pool_t)
    (conf : ngx_json_log_main_kafka_conf_t) (bs : ngx_array_t) (w : World)
    (rkc : rd_kafka_conf_t) (rk : rd_kafka_t)
    (hc : w.conf_new 0 = some rkc) (hk : w.kafka_new 0 = some rk) :
    ∃ r, ngx_json_log_configure_kafka dbg pool { conf with brokers := some bs } w = some r ∧
      r.1.1 = (if accepted_brokers (since w r.2) = 0 then NGX_ERROR else NGX_OK) ∧
      r.1.2 = { configured_conf { conf with brokers := some bs } rkc with
                rk := some rk, valid_brokers := accepted_brokers (since w r.2) } ∧
      conf_set_calls (since w r.2) = configured_pairs dbg conf w.pcalloc ∧
      accepted_brokers (since w r.2) = accepted_count w.brokers_add bs.elts.length := by
  cases dbg <;>
  simp only [ngx_json_log_configure_kafka, conf_new_fst, hc, conf_set_str_pair_merge,
     conf_set_int_merge, conf_set_str_merge, set_log_level_merge,
     apply_ite ngx_json_log_main_kafka_conf_t.rk,
     apply_ite ngx_json_log_main_kafka_conf_t.rkc,
     apply_ite ngx_json_log_main_kafka_conf_t.brokers,
     apply_ite ngx_json_log_main_kafka_conf_t.valid_brokers,
     apply_ite ngx_json_log_main_kafka_conf_t.client_id,
     apply_ite ngx_json_log_main_kafka_conf_t.compression,
     apply_ite ngx_json_log_main_kafka_conf_t.log_level,
     apply_ite ngx_json_log_main_kafka_conf_t.max_retries,
     apply_ite ngx_json_log_main_kafka_conf_t.buffer_max_messages,
     apply_ite ngx_json_log_main_kafka_conf_t.backoff_ms,
     apply_ite ngx_json_log_main_kafka_conf_t.partition,
     ite_self, if_true, if_false, Bool.false_eq_true] <;>
  simp only [conf_new_snd, conf_set_int_snd, conf_set_str_snd, producer_new_fst,
     producer_new_snd, hk, rd_kafka_set_log_level, add_brokers_snd, add_brokers_fst,
     ngx_log_error] <;>
  by_cases hK : accepted_count w.brokers_add bs.elts.length = 0 <;>
  first
    | rw [if_pos hK]
    | rw [if_neg hK]
  all_goals
    refine ⟨_, rfl, ?_, ?_, ?_, ?_⟩ <;>
    simp [since, List.append_assoc, conf_set_calls_append, accepted_brokers_append,
      conf_set_calls_conf_new, conf_set_calls_int, conf_set_calls_str,
      conf_set_calls_producer_new, accepted_brokers_conf_new, accepted_brokers_int,
      accepted_brokers_str, accepted_brokers_producer_new, configured_pairs, tl,
      accepted_brokers_events, conf_set_calls_brokers, configured_conf, hK,
      accepted_brokers_cons_log, accepted_brokers_cons_level, conf_set_calls_cons_log,
      conf_set_calls_cons_level, accepted_brokers_nil, conf_set_calls_nil]

theorem all_log_entries_events (rk : rd_kafka_t) (l : List ngx_str_t) :
    ∀ (alloc : Nat → Bool) (add : Nat → Int),
      (all_log_entries (brokers_events rk l alloc add)).map (fun e => e.2.2) =
        l.map (fun b => [LogArg.V b]) := by
  induction l with
  | nil => intro alloc add; simp [brokers_events, all_log_entries]
  | cons b rest ih =>
    intro alloc add
    have ih2 := ih (tl alloc) (tl add)
    unfold all_log_entries at ih2 ⊢
    by_cases h : add 0 = 0 <;> simp [brokers_events, ih2, h]

theorem accepted_count_le (add : Nat → Int) (n : Nat) : accepted_count add n ≤ n := by
  unfold accepted_count
  exact (List.countP_le_length _).trans (by simp)

/-! ## The claims -/

/-- C10: `ngx_json_log_kafka_add_brokers` calls `rd_kafka_brokers_add` once for each
address of the list, in list order and whatever the earlier answers were (the
argument is the copy of the address, NULL when the copy could not be allocated,
and the log line of each attempt names the address); it returns the number of
calls answered with a non-zero value, which is at most the list length and is 0
for an empty list. -/
theorem add_brokers_attempts_all_and_counts (pool : ngx_pool_t) (rk : rd_kafka_t)
    (brokers : ngx_array_t) (w : World) :
    brokers_add_calls (since w (ngx_json_log_kafka_add_brokers pool rk brokers w).2) =
        brokers.elts.enum.map
          (fun p => if w.pcalloc p.1 then some (str_buffer p.2) else none) ∧
      (all_log_entries
          (since w (ngx_json_log_kafka_add_brokers pool rk brokers w).2)).map
        (fun e => e.2.2) = brokers.elts.map (fun b => [LogArg.V b]) ∧
      (ngx_json_log_kafka_add_brokers pool rk brokers w).1 =
        accepted_brokers (since w (ngx_json_log_kafka_add_brokers pool rk brokers w).2) ∧
      (ngx_json_log_kafka_add_brokers pool rk brokers w).1 =
        ((List.range brokers.nelts).filter (fun i => decide (w.brokers_add i ≠ 0))).length ∧
      (ngx_json_log_kafka_add_brokers pool rk brokers w).1 ≤ brokers.nelts ∧
      (brokers.elts = [] → (ngx_json_log_kafka_add_brokers pool rk brokers w).1 = 0) := by
  have hs : since w (ngx_json_log_kafka_add_brokers pool rk brokers w).2 =
      brokers_events rk brokers.elts w.pcalloc w.brokers_add := by
    simp [since, add_brokers_snd]
  have hc := brokers_add_calls_events rk brokers.elts 0 w.pcalloc w.brokers_add
  simp only [Nat.add_zero] at hc
  rw [hs, add_brokers_fst, accepted_brokers_events, all_log_entries_events]
  refine ⟨hc, rfl, rfl, ?_, accepted_count_le _ _, ?_⟩
  · simp [accepted_count, ngx_array_t.nelts, List.countP_eq_length_filter]
  · intro h
    simp [h, accepted_count]

/-- Witness of C10: an empty list registers nothing. -/
theorem add_brokers_attempts_all_and_counts_witness :
    (ngx_json_log_kafka_add_brokers pool0 2 ⟨[], by decide⟩ world_ok).1 = 0 :=
  (add_brokers_attempts_all_and_counts pool0 2 ⟨[], by decide⟩ world_ok).2.2.2.2.2 rfl

/-- C1: with the list `bs` of broker addresses, whenever `rd_kafka_conf_new` and
`rd_kafka_new` both return an object, `ngx_json_log_configure_kafka` returns
`NGX_OK` exactly when at least one `rd_kafka_brokers_add` call of the run was
answered with a non-zero value and `NGX_ERROR` exactly when none was, whatever
the length of the list; and with an empty list it returns `NGX_ERROR` whatever
the world answers. -/
theorem configure_kafka_ok_iff_broker_accepted (dbg : Bool) (pool : ngx_pool_t)
    (conf : ngx_json_log_main_kafka_conf_t) (bs : ngx_array_t) (w : World) :
    ∃ r, ngx_json_log_configure_kafka dbg pool { conf with brokers := some bs } w = some r ∧
      (w.conf_new 0 ≠ none → w.kafka_new 0 ≠ none →
        (r.1.1 = NGX_OK ↔ 1 ≤ accepted_brokers (since w r.2)) ∧
        (r.1.1 = NGX_ERROR ↔ accepted_brokers (since w r.2) = 0) ∧
        accepted_brokers (since w r.2) ≤ bs.nelts) ∧
      (bs.elts = [] → r.1.1 = NGX_ERROR) := by
  cases hc : w.conf_new 0 with
  | none =>
    obtain ⟨r, hr, hret, -, -, -⟩ := configure_no_conf dbg pool { conf with brokers := some bs } w hc
    exact ⟨r, hr, fun h => absurd rfl h, fun _ => hret⟩
  | some rkc =>
    cases hk : w.kafka_new 0 with
    | none =>
      obtain ⟨r, hr, hret, -, -, -⟩ :=
        configure_no_producer dbg pool { conf with brokers := some bs } w rkc hc hk
      exact ⟨r, hr, fun _ h => absurd rfl h, fun _ => hret⟩
    | some rk =>
      obtain ⟨r, hr, hret, -, -, hacc⟩ := configure_with_producer dbg pool conf bs w rkc rk hc hk
      refine ⟨r, hr, fun _ _ => ⟨?_, ?_, ?_⟩, ?_⟩
      · rw [hret]; split <;> simp [NGX_OK, NGX_ERROR] <;> omega
      · rw [hret]; split <;> simp [NGX_OK, NGX_ERROR] <;> omega
      · rw [hacc]; exact accepted_count_le _ _
      · intro he
        rw [hret, hacc, he]
        simp [accepted_count]

/-- Witness of C1: one broker, accepted, in a world where everything succeeds. -/
theorem configure_kafka_ok_iff_broker_accepted_witness :
    ∃ r, ngx_json_log_configure_kafka false pool0
        { kafka_zero with brokers := some ⟨[ngx_string "localhost:9092"], by decide⟩ }
        world_ok = some r ∧
      (r.1.1 = NGX_OK ↔ 1 ≤ accepted_brokers (since world_ok r.2)) ∧
      (r.1.1 = NGX_ERROR ↔ accepted_brokers (since world_ok r.2) = 0) ∧
      accepted_brokers (since world_ok r.2) ≤ 1 := by
  obtain ⟨r, hr, h, -⟩ := configure_kafka_ok_iff_broker_accepted false pool0 kafka_zero
    ⟨[ngx_string "localhost:9092"], by decide⟩ world_ok
  exact ⟨r, hr, h (by decide) (by decide)⟩

/-! ## What ngx_json_log_configure_kafka does once the configuration exists -/

theorem configure_with_conf (dbg : Bool) (pool : ngx_pool_t)
    (conf : ngx_json_log_main_kafka_conf_t) (bs : ngx_array_t) (w : World)
    (rkc : rd_kafka_conf_t) (hc : w.conf_new 0 = some rkc) :
    ∃ r, ngx_json_log_configure_kafka dbg pool { conf with brokers := some bs } w = some r ∧
      conf_set_calls (since w r.2) = configured_pairs dbg conf w.pcalloc ∧
      r.1.2.partition =
        (if conf.partition = NGX_CONF_UNSET then RD_KAFKA_PARTITION_UA
         else conf.partition) ∧
      r.1.2.rkc = some rkc ∧ r.1.2.rk = w.kafka_new 0 ∧
      r.1.1 =
        (if w.kafka_new 0 = none then NGX_ERROR
         else if accepted_count w.brokers_add bs.elts.length = 0 then NGX_ERROR
         else NGX_OK) ∧
      accepted_brokers (since w r.2) =
        (if w.kafka_new 0 = none then 0
         else accepted_count w.brokers_add bs.elts.length) := by
  cases hk : w.kafka_new 0 with
  | none =>
    obtain ⟨r, hr, hret, hconf, hcalls, hacc⟩ :=
      configure_no_producer dbg pool { conf with brokers := some bs } w rkc hc hk
    refine ⟨r, hr, ?_, ?_, ?_, ?_, ?_, ?_⟩
    · rw [hcalls]; rfl
    · rw [hconf]; rfl
    · rw [hconf]; rfl
    · rw [hconf]
    · simpa using hret
    · simpa using hacc
  | some rk =>
    obtain ⟨r, hr, hret, hconf, hcalls, hacc⟩ :=
      configure_with_producer dbg pool conf bs w rkc rk hc hk
    refine ⟨r, hr, hcalls, ?_, ?_, ?_, ?_, ?_⟩
    · rw [hconf]; rfl
    · rw [hconf]; rfl
    · rw [hconf]
    · rw [hret, hacc]; simp
    · simpa using hacc

theorem init_kafka_leaves_unset (pool : ngx_pool_t)
    (kafka : Option ngx_json_log_main_kafka_conf_t) (w : World)
    (conf : ngx_json_log_main_kafka_conf_t)
    (h : (ngx_json_log_init_kafka pool kafka w).1 = (NGX_OK, some conf)) :
    conf.rk = none ∧ conf.rkc = none ∧ fields_unset conf ∧
      conf.partition = NGX_CONF_UNSET ∧ ∃ a, conf.brokers = some a ∧ a.elts = [] := by
  unfold ngx_json_log_init_kafka ngx_array_create at h
  cases kafka with
  | none => simp [NGX_OK, NGX_ERROR] at h
  | some k =>
    by_cases ha : w.array_create 0 = true
    · simp [ha] at h
      subst h
      simp [fields_unset, NGX_CONF_UNSET_MSEC, NGX_CONF_UNSET_UINT]
    · simp [ha, NGX_OK, NGX_ERROR] at h

/-- On a zeroed structure, in a world where everything succeeds,
`ngx_json_log_init_kafka` returns `NGX_OK` and leaves `kafka_unset []`. -/
theorem init_kafka_gives_kafka_unset :
    (ngx_json_log_init_kafka pool0 (some kafka_zero) world_ok).1 =
      (NGX_OK, some (kafka_unset [] (by decide))) := rfl

theorem snprintf_lu_default_buffer :
    snprintf_lu NGX_INT64_LEN kafka_buffer_max_messages_default_value = "100000" := by
  decide

theorem snprintf_lu_default_retries :
    snprintf_lu NGX_INT64_LEN kafka_max_retries_default_value = "0" := by decide

theorem snprintf_lu_default_backoff :
    snprintf_lu NGX_INT64_LEN (intmax_of_uint kafka_backoff_ms_default_value) = "10" := by
  decide

theorem snprintf_lu_default_level :
    snprintf_lu NGX_INT64_LEN kafka_log_level_default_value = "6" := by decide

theorem intmax_of_uint_mod (u : Nat) : ((intmax_of_uint u) % 2 ^ 64).toNat = u % 2 ^ 64 := by
  unfold intmax_of_uint
  split <;> omega

/-- Below `10 ^ 19` the text `ngx_json_log_kafka_conf_set_int` prints for a stored
unsigned value is its full decimal representation. -/
theorem snprintf_lu_exact (u : Nat) (h : u < 10 ^ 19) :
    snprintf_lu NGX_INT64_LEN (intmax_of_uint u) = Nat.repr u := by
  have hu : u % 2 ^ 64 = u := Nat.mod_eq_of_lt (by omega)
  have hl : (Nat.repr u).length ≤ 19 := Nat.repr_length u 19 (by decide) h
  unfold snprintf_lu
  rw [intmax_of_uint_mod, hu]
  have : (Nat.repr u).toList.take (NGX_INT64_LEN - 1) = (Nat.repr u).toList :=
    List.take_of_length_le hl
  rw [this]
  rfl

theorem str_buffer_ngx_string (s : String) : str_buffer (ngx_string s) = s := by
  have h : List.take s.length s.toList = s.toList := List.take_of_length_le (Nat.le_refl _)
  show (⟨List.take s.length s.toList⟩ : String) = s
  rw [h]
  rfl

/-! ## The claims about ngx_json_log_configure_kafka -/

/-- C8: with a list `bs` of broker addresses, whenever `rd_kafka_conf_new` returns an
object, the partition field after `ngx_json_log_configure_kafka` is
`RD_KAFKA_PARTITION_UA` if it was `NGX_CONF_UNSET` before and is unchanged
otherwise; and with the list `["localhost:9092"]`, every setting and the
partition unset, when the broker is accepted the call returns `NGX_OK` with the
partition `RD_KAFKA_PARTITION_UA`. -/
theorem configure_kafka_resolves_partition (dbg : Bool) (pool : ngx_pool_t)
    (conf : ngx_json_log_main_kafka_conf_t) (bs : ngx_array_t) (w : World) :
    ∃ r, ngx_json_log_configure_kafka dbg pool { conf with brokers := some bs } w = some r ∧
      (w.conf_new 0 ≠ none →
        (conf.partition = NGX_CONF_UNSET → r.1.2.partition = RD_KAFKA_PARTITION_UA) ∧
        (conf.partition ≠ NGX_CONF_UNSET → r.1.2.partition = conf.partition)) ∧
      (bs.elts = [ngx_string "localhost:9092"] → fields_unset conf →
        conf.partition = NGX_CONF_UNSET → 1 ≤ accepted_brokers (since w r.2) →
        r.1.1 = NGX_OK ∧ r.1.2.partition = RD_KAFKA_PARTITION_UA) := by
  cases hc : w.conf_new 0 with
  | none =>
    obtain ⟨r, hr, -, -, -, hacc⟩ :=
      configure_no_conf dbg pool { conf with brokers := some bs } w hc
    exact ⟨r, hr, fun h => absurd rfl h, fun _ _ _ h => by omega⟩
  | some rkc =>
    obtain ⟨r, hr, -, hpart, -, -, hret, hacc⟩ := configure_with_conf dbg pool conf bs w rkc hc
    refine ⟨r, hr, fun _ => ⟨fun h => ?_, fun h => ?_⟩, fun _ _ hp hone => ⟨?_, ?_⟩⟩
    · rw [hpart, if_pos h]
    · rw [hpart, if_neg h]
    · rw [hret]
      rw [hacc] at hone
      by_cases hk : w.kafka_new 0 = none
      · rw [if_pos hk] at hone; omega
      · rw [if_neg hk] at hone
        rw [if_neg hk, if_neg (by omega)]
    · rw [hpart, if_pos hp]

/-- Witness of C8: the scenario itself, in a world where everything succeeds. -/
theorem configure_kafka_resolves_partition_witness :
    ∃ r, ngx_json_log_configure_kafka false pool0
        (kafka_unset [ngx_string "localhost:9092"] (by decide)) world_ok = some r ∧
      r.1.1 = NGX_OK ∧ r.1.2.partition = RD_KAFKA_PARTITION_UA := by
  obtain ⟨r, hr, h1, h2⟩ := configure_kafka_resolves_partition false pool0
    (kafka_unset [ngx_string "localhost:9092"] (by decide))
    ⟨[ngx_string "localhost:9092"], by decide⟩ world_ok
  have hr2 : ngx_json_log_configure_kafka false pool0
      (kafka_unset [ngx_string "localhost:9092"] (by decide)) world_ok = some r := hr
  have hacc : 1 ≤ accepted_brokers (since world_ok r.2) := by
    have e : (ngx_json_log_configure_kafka false pool0
        (kafka_unset [ngx_string "localhost:9092"] (by decide)) world_ok).map
        (fun r => accepted_brokers (since world_ok r.2)) = some 1 := by decide
    rw [hr2] at e
    simp at e
    omega
  exact ⟨r, hr2, h2 rfl (by simp [fields_unset, kafka_unset, NGX_CONF_UNSET_MSEC,
    NGX_CONF_UNSET_UINT]) rfl hacc⟩

/-- C2, amended: for a configuration whose six settings are unset, once
`rd_kafka_conf_new` has returned an object and when the two pool allocations
that copy the string values succeed, the pairs handed to `rd_kafka_conf_set` are
exactly the six documented defaults, in this order, followed in a debug build by
debug = "all" when its copy is allocated. -/
theorem configure_kafka_applies_defaults (dbg : Bool) (pool : ngx_pool_t)
    (conf : ngx_json_log_main_kafka_conf_t) (bs : ngx_array_t) (w : World)
    (hu : fields_unset conf) (hc : w.conf_new 0 ≠ none)
    (h0 : w.pcalloc 0 = true) (h1 : w.pcalloc 1 = true) :
    ∃ r, ngx_json_log_configure_kafka dbg pool { conf with brokers := some bs } w = some r ∧
      conf_set_calls (since w r.2) =
        documented_defaults ++ (if dbg && w.pcalloc 2 then [("debug", "all")] else []) := by
  obtain ⟨rkc, hrkc⟩ : ∃ c, w.conf_new 0 = some c := by
    cases h : w.conf_new 0 with
    | none => exact absurd h hc
    | some c => exact ⟨c, rfl⟩
  obtain ⟨r, hr, hcalls, -⟩ := configure_with_conf dbg pool conf bs w rkc hrkc
  obtain ⟨hcomp, hid, hlvl, hret, hbuf, hback⟩ := hu
  refine ⟨r, hr, ?_⟩
  rw [hcalls]
  unfold configured_pairs
  rw [if_pos h0, if_pos h1, if_pos hcomp, if_pos hid, if_pos hlvl, if_pos hret, if_pos hbuf,
    if_pos hback, snprintf_lu_default_buffer, snprintf_lu_default_retries,
    snprintf_lu_default_backoff, snprintf_lu_default_level]
  rfl

/-- Witness of C2, amended: the configuration left by `ngx_json_log_init_kafka`
in a world where everything succeeds. -/
theorem configure_kafka_applies_defaults_witness :
    ∃ r, ngx_json_log_configure_kafka false pool0
        { kafka_unset [] (by decide) with brokers := some ⟨[], by decide⟩ } world_ok =
          some r ∧
      conf_set_calls (since world_ok r.2) = documented_defaults ++ [] :=
  configure_kafka_applies_defaults false pool0 (kafka_unset [] (by decide))
    ⟨[], by decide⟩ world_ok
    (by simp [fields_unset, kafka_unset, NGX_CONF_UNSET_MSEC, NGX_CONF_UNSET_UINT])
    (by decide) rfl rfl

/-- C2 as stated fails: every setting is unset and `rd_kafka_conf_new` returns an
object, but the first pool allocation fails, and only five pairs are applied:
compression.codec is not. -/
theorem configure_kafka_defaults_counterexample :
    (kafka_unset [] (by decide)).compression.data = none ∧
    (kafka_unset [] (by decide)).client_id.data = none ∧
    (kafka_unset [] (by decide)).log_level = NGX_CONF_UNSET_UINT ∧
    (kafka_unset [] (by decide)).max_retries = NGX_CONF_UNSET_UINT ∧
    (kafka_unset [] (by decide)).buffer_max_messages = NGX_CONF_UNSET_UINT ∧
    (kafka_unset [] (by decide)).backoff_ms = NGX_CONF_UNSET_MSEC ∧
    world_first_alloc_fails.conf_new 0 = some 1 ∧
    (ngx_json_log_configure_kafka false pool0 (kafka_unset [] (by decide))
        world_first_alloc_fails).map
      (fun r => conf_set_calls (since world_first_alloc_fails r.2)) =
      some [("queue.buffering.max.messages", "100000"),
            ("message.send.max.retries", "0"),
            ("retry.backoff.ms", "10"),
            ("client.id", "nginx"),
            ("log_level", "6")] ∧
    (ngx_json_log_configure_kafka false pool0 (kafka_unset [] (by decide))
        world_first_alloc_fails).map
      (fun r => conf_set_calls (since world_first_alloc_fails r.2)) ≠
      some documented_defaults := by
  decide

/-- C3 fails on the code: the buffer limit is set to `10 ^ 19`, a 64-bit unsigned
value other than the sentinel, and the value applied under
queue.buffering.max.messages is "1000000000000000000", the first 19 of its 20
digits, where its decimal text is "10000000000000000000". -/
theorem configure_kafka_truncates_twenty_digits :
    kafka_big_buffer.buffer_max_messages ≠ NGX_CONF_UNSET_UINT ∧
    kafka_big_buffer.buffer_max_messages < 2 ^ 64 ∧
    Nat.repr kafka_big_buffer.buffer_max_messages = "10000000000000000000" ∧
    (ngx_json_log_configure_kafka false pool0 kafka_big_buffer world_ok).map
      (fun r => (r.1.1, (conf_set_calls (since world_ok r.2)).lookup
        "queue.buffering.max.messages")) =
      some (NGX_OK, some "1000000000000000000") := by
  decide

/-- C4, amended: once `rd_kafka_conf_new` has returned an object, whatever
`rd_kafka_conf_set` answers (the answers `f` in place of those of `w`), the
run hands the same pairs to `rd_kafka_conf_set` and returns the same value: each
of the four integer keys once, compression.codec once when the first pool
allocation succeeds and client.id once when the second does (a key whose copy
cannot be allocated is not attempted), then in a debug build the debug key. -/
theorem configure_kafka_keys_independent_of_answers (dbg : Bool) (pool : ngx_pool_t)
    (conf : ngx_json_log_main_kafka_conf_t) (bs : ngx_array_t) (w : World)
    (f : Nat → Int) (hc : w.conf_new 0 ≠ none) :
    ∃ r r2,
      ngx_json_log_configure_kafka dbg pool { conf with brokers := some bs } w = some r ∧
      ngx_json_log_configure_kafka dbg pool { conf with brokers := some bs }
        { w with conf_set := f } = some r2 ∧
      conf_set_calls (since w r.2) = configured_pairs dbg conf w.pcalloc ∧
      (conf_set_calls (since w r.2)).map Prod.fst = configured_keys dbg w.pcalloc ∧
      conf_set_calls (since { w with conf_set := f } r2.2) = conf_set_calls (since w r.2) ∧
      r2.1.1 = r.1.1 := by
  obtain ⟨rkc, hrkc⟩ : ∃ c, w.conf_new 0 = some c := by
    cases h : w.conf_new 0 with
    | none => exact absurd h hc
    | some c => exact ⟨c, rfl⟩
  obtain ⟨r, hr, hcalls, -, -, -, hret, -⟩ := configure_with_conf dbg pool conf bs w rkc hrkc
  obtain ⟨r2, hr2, hcalls2, -, -, -, hret2, -⟩ :=
    configure_with_conf dbg pool conf bs { w with conf_set := f } rkc hrkc
  refine ⟨r, r2, hr, hr2, hcalls, ?_, ?_, ?_⟩
  · rw [hcalls]
    unfold configured_pairs configured_keys
    cases dbg <;> cases w.pcalloc 0 <;> cases w.pcalloc 1 <;> cases w.pcalloc 2 <;> rfl
  · rw [hcalls, hcalls2]
  · rw [hret, hret2]

/-- Witness of C4, amended: every key rejected instead of accepted. -/
theorem configure_kafka_keys_independent_of_answers_witness :
    ∃ r r2,
      ngx_json_log_configure_kafka false pool0
        { kafka_zero with brokers := some ⟨[], by decide⟩ } world_ok = some r ∧
      ngx_json_log_configure_kafka false pool0
        { kafka_zero with brokers := some ⟨[], by decide⟩ }
        { world_ok with conf_set := fun _ => -1 } = some r2 ∧
      conf_set_calls (since world_ok r.2) = configured_pairs false kafka_zero world_ok.pcalloc ∧
      (conf_set_calls (since world_ok r.2)).map Prod.fst =
        configured_keys false world_ok.pcalloc ∧
      conf_set_calls (since { world_ok with conf_set := fun _ => -1 } r2.2) =
        conf_set_calls (since world_ok r.2) ∧
      r2.1.1 = r.1.1 :=
  configure_kafka_keys_independent_of_answers false pool0 kafka_zero ⟨[], by decide⟩
    world_ok (fun _ => -1) (by decide)

/-- C4 as stated fails: `rd_kafka_conf_new` returns an object and the second pool
allocation fails; client.id is then not attempted at all, and five keys are. -/
theorem configure_kafka_six_keys_counterexample :
    world_second_alloc_fails.conf_new 0 = some 1 ∧
    (ngx_json_log_configure_kafka false pool0 (kafka_unset [] (by decide))
        world_second_alloc_fails).map
      (fun r => (conf_set_calls (since world_second_alloc_fails r.2)).map Prod.fst) =
      some ["compression.codec", "queue.buffering.max.messages",
            "message.send.max.retries", "retry.backoff.ms", "log_level"] ∧
    (ngx_json_log_configure_kafka false pool0 (kafka_unset [] (by decide))
        world_second_alloc_fails).map
      (fun r => ((conf_set_calls (since world_second_alloc_fails r.2)).map
        Prod.fst).count "client.id") = some 0 := by
  decide

/-- C6, amended: for a configuration whose two handles are NULL, as
`ngx_json_log_init_kafka` leaves them, when `ngx_json_log_configure_kafka`
returns `NGX_ERROR` one of three things happened: `rd_kafka_conf_new` failed, and
both handles are still NULL; or it returned an object and `rd_kafka_new` failed,
and `rk` is NULL while `rkc` holds the object; or both returned an object and no
broker was accepted, and `rk` and `rkc` hold the two objects and `valid_brokers`
is 0. -/
theorem configure_kafka_error_states (dbg : Bool) (pool : ngx_pool_t)
    (conf : ngx_json_log_main_kafka_conf_t) (bs : ngx_array_t) (w : World)
    (hrk : conf.rk = none) (_hrkc : conf.rkc = none) :
    ∃ r, ngx_json_log_configure_kafka dbg pool { conf with brokers := some bs } w = some r ∧
      (r.1.1 = NGX_ERROR →
        (w.conf_new 0 = none ∧ r.1.2.rk = none ∧ r.1.2.rkc = none) ∨
        (∃ c, w.conf_new 0 = some c ∧ w.kafka_new 0 = none ∧
          r.1.2.rk = none ∧ r.1.2.rkc = some c) ∨
        (∃ c k, w.conf_new 0 = some c ∧ w.kafka_new 0 = some k ∧
          accepted_brokers (since w r.2) = 0 ∧
          r.1.2.rk = some k ∧ r.1.2.rkc = some c ∧ r.1.2.valid_brokers = 0)) := by
  cases hc : w.conf_new 0 with
  | none =>
    obtain ⟨r, hr, -, hconf, -, -⟩ :=
      configure_no_conf dbg pool { conf with brokers := some bs } w hc
    refine ⟨r, hr, fun _ => Or.inl ⟨rfl, ?_, ?_⟩⟩
    · rw [hconf]; exact hrk
    · rw [hconf]
  | some rkc =>
    cases hk : w.kafka_new 0 with
    | none =>
      obtain ⟨r, hr, -, hconf, -, -⟩ :=
        configure_no_producer dbg pool { conf with brokers := some bs } w rkc hc hk
      refine ⟨r, hr, fun _ => Or.inr (Or.inl ⟨rkc, rfl, rfl, ?_, ?_⟩)⟩
      · rw [hconf]
      · rw [hconf]; rfl
    | some rk =>
      obtain ⟨r, hr, hret, hconf, -, -⟩ :=
        configure_with_producer dbg pool conf bs w rkc rk hc hk
      refine ⟨r, hr, fun he => Or.inr (Or.inr ⟨rkc, rk, rfl, rfl, ?_⟩)⟩
      have h0 : accepted_brokers (since w r.2) = 0 := by
        by_contra hne
        rw [hret, if_neg hne] at he
        simp [NGX_OK, NGX_ERROR] at he
      refine ⟨h0, ?_, ?_, ?_⟩
      · rw [hconf]
      · rw [hconf]; rfl
      · rw [hconf]; exact h0

/-- Witness of C6, amended: `rd_kafka_new` fails on the configuration left by
`ngx_json_log_init_kafka`. -/
theorem configure_kafka_error_states_witness :
    ∃ r, ngx_json_log_configure_kafka false pool0
        { kafka_unset [] (by decide) with brokers := some ⟨[], by decide⟩ }
        world_no_producer = some r ∧
      (r.1.1 = NGX_ERROR →
        (world_no_producer.conf_new 0 = none ∧ r.1.2.rk = none ∧ r.1.2.rkc = none) ∨
        (∃ c, world_no_producer.conf_new 0 = some c ∧ world_no_producer.kafka_new 0 = none ∧
          r.1.2.rk = none ∧ r.1.2.rkc = some c) ∨
        (∃ c k, world_no_producer.conf_new 0 = some c ∧
          world_no_producer.kafka_new 0 = some k ∧
          accepted_brokers (since world_no_producer r.2) = 0 ∧
          r.1.2.rk = some k ∧ r.1.2.rkc = some c ∧ r.1.2.valid_brokers = 0)) :=
  configure_kafka_error_states false pool0 (kafka_unset [] (by decide)) ⟨[], by decide⟩
    world_no_producer rfl rfl

/-- C6 as stated fails: on the configuration left by `ngx_json_log_init_kafka`
(`rk` and `rkc` NULL), when `rd_kafka_new` fails the call returns `NGX_ERROR` and
`rkc` is not NULL; and when both objects are created and the broker list is
empty it returns `NGX_ERROR` and neither handle is NULL. -/
theorem configure_kafka_error_keeps_handles_counterexample :
    (kafka_unset [] (by decide)).rk = none ∧ (kafka_unset [] (by decide)).rkc = none ∧
    (ngx_json_log_configure_kafka false pool0 (kafka_unset [] (by decide))
        world_no_producer).map (fun r => (r.1.1, r.1.2.rk, r.1.2.rkc)) =
      some (NGX_ERROR, none, some 1) ∧
    (ngx_json_log_configure_kafka false pool0 (kafka_unset [] (by decide))
        world_ok).map (fun r => (r.1.1, r.1.2.rk, r.1.2.rkc)) =
      some (NGX_ERROR, some 2, some 1) := by
  decide


/-! ## The claims about the topic configuration and the produce path -/

/-- C9: `ngx_json_log_kafka_produce` returns nothing (its only result is the world)
and calls `rd_kafka_produce` exactly once, whatever the answer; when the answer
is -1 it writes one line of severity `NGX_LOG_ERR`, whose arguments are the
topic name, the partition, the error text and the answer, and otherwise it
writes no line of that severity. -/
theorem produce_logs_error_iff_failed (dbg : Bool) (pool : ngx_pool_t) (rk : rd_kafka_t)
    (rkt : rd_kafka_topic_t) (partition : Int) (txt : String) (msg_id : Option ngx_str_t)
    (w : World) :
    (produce_calls
        (since w (ngx_json_log_kafka_produce dbg pool rk rkt partition txt msg_id w))).map
      (fun c => c.2.2) = [w.produce 0] ∧
    (ngx_json_log_kafka_produce dbg pool rk rkt partition txt msg_id w).produce =
      tl w.produce ∧
    (w.produce 0 = -1 →
      log_entries NGX_LOG_ERR
          (since w (ngx_json_log_kafka_produce dbg pool rk rkt partition txt msg_id w)) =
        [("%% Failed to produce to topic %s partition %i: %s - %d\n",
          [LogArg.s rkt.name, LogArg.i partition, LogArg.err2str, LogArg.i (-1)])]) ∧
    (w.produce 0 ≠ -1 →
      log_entries NGX_LOG_ERR
          (since w (ngx_json_log_kafka_produce dbg pool rk rkt partition txt msg_id w)) =
        []) := by
  unfold ngx_json_log_kafka_produce rd_kafka_produce ngx_log_error
  by_cases h1 : w.produce 0 = -1
  · cases dbg <;>
      simp [since, produce_calls, log_entries, h1, NGX_LOG_ERR, NGX_LOG_DEBUG]
  · by_cases h0 : w.produce 0 = 0 <;> cases dbg <;>
      simp [since, produce_calls, log_entries, h1, h0, NGX_LOG_ERR, NGX_LOG_DEBUG]

/-- Witness of C9: a submission answered with -1. -/
theorem produce_logs_error_iff_failed_witness :
    log_entries NGX_LOG_ERR
        (since world_produce_fails
          (ngx_json_log_kafka_produce false pool0 2 ⟨"access"⟩ 3 "line" none
            world_produce_fails)) =
      [("%% Failed to produce to topic %s partition %i: %s - %d\n",
        [LogArg.s "access", LogArg.i 3, LogArg.err2str, LogArg.i (-1)])] :=
  (produce_logs_error_iff_failed false pool0 2 ⟨"access"⟩ 3 "line" none
    world_produce_fails).2.2.1 rfl

/-- C5, amended: the one submission `ngx_json_log_kafka_produce` makes carries key
NULL and key length 0 when `msg_id` is NULL; it carries exactly the data pointer
and the length of `msg_id` when the data pointer is not NULL, the length 0
included; and it carries key NULL when the data pointer is NULL. -/
theorem produce_submits_key (dbg : Bool) (pool : ngx_pool_t) (rk : rd_kafka_t)
    (rkt : rd_kafka_topic_t) (partition : Int) (txt : String) (w : World) :
    (produce_calls
        (since w (ngx_json_log_kafka_produce dbg pool rk rkt partition txt none w))).map
      (fun c => (c.1, c.2.1)) = [(none, 0)] ∧
    (∀ (m : ngx_str_t) (d : String), m.data = some d →
      (produce_calls
          (since w (ngx_json_log_kafka_produce dbg pool rk rkt partition txt (some m) w))).map
        (fun c => (c.1, c.2.1)) = [(some d, m.len)]) ∧
    (∀ (m : ngx_str_t), m.data = none →
      (produce_calls
          (since w (ngx_json_log_kafka_produce dbg pool rk rkt partition txt (some m) w))).map
        (fun c => c.1) = [none]) := by
  unfold ngx_json_log_kafka_produce rd_kafka_produce ngx_log_error
  refine ⟨?_, ?_, ?_⟩
  · by_cases h1 : w.produce 0 = -1 <;> by_cases h0 : w.produce 0 = 0 <;> cases dbg <;>
      simp [since, produce_calls, h1, h0]
  · intro m d hd
    by_cases h1 : w.produce 0 = -1 <;> by_cases h0 : w.produce 0 = 0 <;> cases dbg <;>
      simp [since, produce_calls, h1, h0, hd]
  · intro m hd
    by_cases h1 : w.produce 0 = -1 <;> by_cases h0 : w.produce 0 = 0 <;> cases dbg <;>
      simp [since, produce_calls, h1, h0, hd]

/-- Witness of C5, amended: the key "a". -/
theorem produce_submits_key_witness :
    (produce_calls
        (since world_ok (ngx_json_log_kafka_produce false pool0 2 ⟨"access"⟩ 0 "line"
          (some (ngx_string "a")) world_ok))).map
      (fun c => (c.1, c.2.1)) = [(some "a", 1)] :=
  (produce_submits_key false pool0 2 ⟨"access"⟩ 0 "line" world_ok).2.1
    (ngx_string "a") "a" rfl

/-- C5 as stated fails: `msg_id` is the empty string `ngx_string("")`, of length 0
and with a data pointer, and the submission carries that pointer as its key, not
NULL. -/
theorem produce_empty_key_counterexample :
    (ngx_string "").len = 0 ∧
    produce_calls
        (since world_ok (ngx_json_log_kafka_produce false pool0 2 ⟨"access"⟩ 0 "line"
          (some (ngx_string "")) world_ok)) = [(some "", 0, 0)] ∧
    (produce_calls
        (since world_ok (ngx_json_log_kafka_produce false pool0 2 ⟨"access"⟩ 0 "line"
          (some (ngx_string "")) world_ok))).map (fun c => (c.1, c.2.1)) ≠ [(none, 0)] := by
  decide

/-- C7, amended: `ngx_json_log_kafka_topic_disable_ack` does nothing at all when
the pool or the topic configuration is NULL.  When both are present and the pool
allocation that copies the value succeeds, it makes exactly one call of
`rd_kafka_topic_conf_set`, with key "request.required.acks" and value "0", and a
topic configuration that accepts it holds "0" under that key, with no log line.
When that allocation fails it makes no call and writes one warning. -/
theorem topic_disable_ack_applies_zero (pool : Option ngx_pool_t)
    (rktc : Option rd_kafka_topic_conf_t) (w : World) :
    (pool = none ∨ rktc = none →
      ngx_json_log_kafka_topic_disable_ack pool rktc w = w ∧
      since w (ngx_json_log_kafka_topic_disable_ack pool rktc w) = []) ∧
    (∀ p c, pool = some p → rktc = some c → w.pcalloc 0 = true →
      topic_conf_set_calls (since w (ngx_json_log_kafka_topic_disable_ack pool rktc w)) =
        [("request.required.acks", "0", w.topic_conf_set 0)] ∧
      (w.topic_conf_set 0 = RD_KAFKA_CONF_OK →
        topic_conf_get (ngx_json_log_kafka_topic_disable_ack pool rktc w).trace c
          "request.required.acks" = some "0" ∧
        all_log_entries (since w (ngx_json_log_kafka_topic_disable_ack pool rktc w)) =
          [])) ∧
    (∀ p c, pool = some p → rktc = some c → w.pcalloc 0 = false →
      topic_conf_set_calls (since w (ngx_json_log_kafka_topic_disable_ack pool rktc w)) =
        [] ∧
      all_log_entries (since w (ngx_json_log_kafka_topic_disable_ack pool rktc w)) =
        [(NGX_LOG_WARN, "json_log: failed to set kafka topic conf [%s] : %s",
          [LogArg.s "request.required.acks", LogArg.errstr])]) := by
  have hz : str_buffer conf_zero_value = "0" := by decide
  refine ⟨?_, ?_, ?_⟩
  · intro h
    rcases h with h | h
    · subst h; simp [ngx_json_log_kafka_topic_disable_ack, since]
    · subst h
      cases pool <;> simp [ngx_json_log_kafka_topic_disable_ack, since]
  · intro p c hp hc ha
    subst hp; subst hc
    simp only [ngx_json_log_kafka_topic_disable_ack, topic_conf_set_str_snd, ha]
    refine ⟨?_, ?_⟩
    · by_cases hr : w.topic_conf_set 0 = RD_KAFKA_CONF_OK <;>
        simp [since, topic_conf_set_calls, topic_conf_set_str_events, hr, hz,
          conf_req_required_acks_key]
    · intro hr
      simp [since, topic_conf_get, all_log_entries, topic_conf_set_str_events, hr, hz,
        conf_req_required_acks_key]
  · intro p c hp hc ha
    subst hp; subst hc
    simp only [ngx_json_log_kafka_topic_disable_ack, topic_conf_set_str_snd, ha]
    simp [since, topic_conf_set_calls, all_log_entries, topic_conf_set_str_events,
      conf_req_required_acks_key]

/-- Witness of C7, amended: both pointers present, in a world where everything
succeeds. -/
theorem topic_disable_ack_applies_zero_witness :
    topic_conf_set_calls
        (since world_ok (ngx_json_log_kafka_topic_disable_ack (some pool0) (some 7) world_ok)) =
      [("request.required.acks", "0", 0)] ∧
    topic_conf_get (ngx_json_log_kafka_topic_disable_ack (some pool0) (some 7) world_ok).trace
      7 "request.required.acks" = some "0" :=
  ⟨((topic_disable_ack_applies_zero (some pool0) (some 7) world_ok).2.1 pool0 7 rfl rfl
      rfl).1,
    (((topic_disable_ack_applies_zero (some pool0) (some 7) world_ok).2.1 pool0 7 rfl rfl
      rfl).2 rfl).1⟩

/-- C7 as stated fails: the pool and the topic configuration are both present and
the pool allocation fails; no call of `rd_kafka_topic_conf_set` is made, and one
warning is written. -/
theorem topic_disable_ack_counterexample :
    topic_conf_set_calls
        (since world_no_alloc
          (ngx_json_log_kafka_topic_disable_ack (some pool0) (some 7) world_no_alloc)) =
      [] ∧
    all_log_entries
        (since world_no_alloc
          (ngx_json_log_kafka_topic_disable_ack (some pool0) (some 7) world_no_alloc)) =
      [(NGX_LOG_WARN, "json_log: failed to set kafka topic conf [%s] : %s",
        [LogArg.s "request.required.acks", LogArg.errstr])] := by
  decide

end NgxJsonLogKafka
